import Mathlib

/-!
Shallow embedding of the core of the `clutter` actor engine
(`clutter/clutter-actor.c`, `clutter/clutter-paint-volume.c`) in Lean 4,
together with theorems settling the behavioural claims about it.

Conventions:
* `gfloat` values are modelled as rationals (`ℚ`); every operation the
  embedded code performs on them (comparison, assignment, addition,
  truncating conversion to `int`) is exact on rationals, so the model is
  faithful for these code paths.
* C truncating float-to-int conversion is modelled by `cTruncToInt`
  (truncation toward zero).
* `g_return_if_fail (c)` is modelled as an early return leaving the state
  unchanged (its GLib production behaviour); `g_assert` is modelled as an
  aborted run (`Option.none`) since a failed assert terminates the program.
-/

/-- C truncation of a real (here rational) value toward zero, as performed by
an assignment of a `gfloat` to an `int` variable. -/
def cTruncToInt (q : ℚ) : Int :=
  if 0 ≤ q then ⌊q⌋ else ⌈q⌉

/-- A 3D vertex, from `ClutterVertex` (fields `x`, `y`, `z` of type `gfloat`). -/
structure ClutterVertex where
  x : ℚ
  y : ℚ
  z : ℚ
deriving DecidableEq, Repr

/-- A paint volume, from `ClutterPaintVolume`. The 8 corner vertices are the
named fields `v0`..`v7` (the C code stores them in `pv->vertices[0..7]`; the
"key" vertices are `v0`, `v1`, `v3`, `v4`). The `actor` back-pointer is
modelled as a flag recording whether it is non-NULL; `is_static` only affects
memory management and is omitted. -/
structure ClutterPaintVolume where
  v0 : ClutterVertex
  v1 : ClutterVertex
  v2 : ClutterVertex
  v3 : ClutterVertex
  v4 : ClutterVertex
  v5 : ClutterVertex
  v6 : ClutterVertex
  v7 : ClutterVertex
  hasActor : Bool
  is_empty : Bool
  is_axis_aligned : Bool
  is_complete : Bool
  is_2d : Bool
deriving DecidableEq, Repr

/-- The zero vertex (the C code memsets the vertex array to 0). -/
def zeroVertex : ClutterVertex := ⟨0, 0, 0⟩

/-- From `_clutter_paint_volume_init_static`: all vertices zeroed, empty,
axis-aligned, complete and 2D. -/
def clutter_paint_volume_init_static (hasActor : Bool) : ClutterPaintVolume :=
  { v0 := zeroVertex, v1 := zeroVertex, v2 := zeroVertex, v3 := zeroVertex
    v4 := zeroVertex, v5 := zeroVertex, v6 := zeroVertex, v7 := zeroVertex
    hasActor := hasActor
    is_empty := true, is_axis_aligned := true, is_complete := true, is_2d := true }

/-- From `_clutter_paint_volume_update_is_empty`: the volume is empty iff
the extents of the three axes all collapse onto the origin vertex. -/
def clutter_paint_volume_update_is_empty (pv : ClutterPaintVolume) : ClutterPaintVolume :=
  if pv.v0.x = pv.v1.x ∧ pv.v0.y = pv.v3.y ∧ pv.v0.z = pv.v4.z then
    { pv with is_empty := true }
  else
    { pv with is_empty := false }

/-- From `clutter_paint_volume_set_origin`: shift the 4 key vertices by the
delta between the new origin and `vertices[0]`, and mark incomplete. -/
def clutter_paint_volume_set_origin (pv : ClutterPaintVolume) (origin : ClutterVertex) :
    ClutterPaintVolume :=
  if ¬ pv.is_axis_aligned then pv
  else
    let dx := origin.x - pv.v0.x
    let dy := origin.y - pv.v0.y
    let dz := origin.z - pv.v0.z
    let shift : ClutterVertex → ClutterVertex :=
      fun v => ⟨v.x + dx, v.y + dy, v.z + dz⟩
    { pv with
      v0 := shift pv.v0, v1 := shift pv.v1, v3 := shift pv.v3, v4 := shift pv.v4
      is_complete := false }

/-- From `clutter_paint_volume_set_width`. -/
def clutter_paint_volume_set_width (pv : ClutterPaintVolume) (width : ℚ) :
    ClutterPaintVolume :=
  if ¬ pv.is_axis_aligned then pv
  else if ¬ (0 ≤ width) then pv
  else
    let pv := if pv.is_empty then
        { pv with v1 := pv.v0, v3 := pv.v0, v4 := pv.v0 }
      else pv
    let right_xpos := pv.v0.x + width
    let pv := { pv with v1 := { pv.v1 with x := right_xpos }, is_complete := false }
    clutter_paint_volume_update_is_empty pv

/-- From `clutter_paint_volume_set_height`. -/
def clutter_paint_volume_set_height (pv : ClutterPaintVolume) (height : ℚ) :
    ClutterPaintVolume :=
  if ¬ pv.is_axis_aligned then pv
  else if ¬ (0 ≤ height) then pv
  else
    let pv := if pv.is_empty then
        { pv with v1 := pv.v0, v3 := pv.v0, v4 := pv.v0 }
      else pv
    let height_ypos := pv.v0.y + height
    let pv := { pv with v3 := { pv.v3 with y := height_ypos }, is_complete := false }
    clutter_paint_volume_update_is_empty pv

/-- From `clutter_paint_volume_set_depth` (also refreshes `is_2d`). -/
def clutter_paint_volume_set_depth (pv : ClutterPaintVolume) (depth : ℚ) :
    ClutterPaintVolume :=
  if ¬ pv.is_axis_aligned then pv
  else if ¬ (0 ≤ depth) then pv
  else
    let pv := if pv.is_empty then
        { pv with v1 := pv.v0, v3 := pv.v0, v4 := pv.v0 }
      else pv
    let depth_zpos := pv.v0.z + depth
    let pv := { pv with v4 := { pv.v4 with z := depth_zpos }
                        is_complete := false
                        is_2d := decide (depth = 0) }
    clutter_paint_volume_update_is_empty pv

/-- From `_clutter_paint_volume_complete`: derive the lazily-updated vertices
(2 for 2D volumes, 2,5,6,7 for 3D ones) from the 4 key vertices. -/
def clutter_paint_volume_complete (pv : ClutterPaintVolume) : ClutterPaintVolume :=
  if pv.is_complete ∨ pv.is_empty then pv
  else if ¬ pv.is_axis_aligned then pv
  else
    let pv := { pv with v2 := ⟨pv.v1.x, pv.v3.y, pv.v0.z⟩ }
    let pv :=
      if ¬ pv.is_2d then
        { pv with v5 := ⟨pv.v1.x, pv.v0.y, pv.v4.z⟩
                  v6 := ⟨pv.v1.x, pv.v3.y, pv.v4.z⟩
                  v7 := ⟨pv.v0.x, pv.v3.y, pv.v4.z⟩ }
      else pv
    { pv with is_complete := true }

/-- From `_clutter_paint_volume_axis_align`: replace a transformed volume by
an axis-aligned bounding volume over its vertices. The early-accept test is
translated verbatim, including the source's comparison of `vertices[0].z`
against `vertices[4].y`. -/
def clutter_paint_volume_axis_align (pv : ClutterPaintVolume) : ClutterPaintVolume :=
  if pv.is_empty then pv
  else if ¬ pv.is_complete then pv
  else if pv.is_axis_aligned then pv
  else if pv.v0.x = pv.v1.x ∧ pv.v0.y = pv.v3.y ∧ pv.v0.z = pv.v4.y then
    { pv with is_axis_aligned := true }
  else
    let rest : List ClutterVertex :=
      if pv.is_2d then [pv.v1, pv.v2, pv.v3]
      else [pv.v1, pv.v2, pv.v3, pv.v4, pv.v5, pv.v6, pv.v7]
    let ox := rest.foldl (fun m v => min m v.x) pv.v0.x
    let oy := rest.foldl (fun m v => min m v.y) pv.v0.y
    let oz := rest.foldl (fun m v => min m v.z) pv.v0.z
    let mx := rest.foldl (fun m v => max m v.x) pv.v0.x
    let my := rest.foldl (fun m v => max m v.y) pv.v0.y
    let mz := rest.foldl (fun m v => max m v.z) pv.v0.z
    let pv := { pv with
      v0 := ⟨ox, oy, oz⟩
      v1 := ⟨mx, oy, oz⟩
      v3 := ⟨ox, my, oz⟩
      v4 := ⟨ox, oy, mz⟩
      is_complete := false
      is_axis_aligned := true }
    { pv with is_2d := decide (pv.v4.z = pv.v0.z) }

/-- From `clutter_paint_volume_union`. The C source assigns the candidate
min/max extents to `int` local variables (`int min_x = another_pv->vertices[0].x;`
and so on), so each grown coordinate is truncated toward zero; the model
reproduces that truncation with `cTruncToInt`. -/
def clutter_paint_volume_union (pv another_pv : ClutterPaintVolume) :
    ClutterPaintVolume :=
  if ¬ pv.is_axis_aligned then pv
  else if another_pv.is_empty then pv
  else if pv.is_empty then
    { pv with v0 := another_pv.v0, v1 := another_pv.v1
              v3 := another_pv.v3, v4 := another_pv.v4
              is_2d := another_pv.is_2d
              is_empty := false, is_complete := false }
  else
    let another_pv :=
      if ¬ another_pv.is_axis_aligned then clutter_paint_volume_axis_align another_pv
      else another_pv
    let pv :=
      if another_pv.v0.x < pv.v0.x then
        let min_x : ℚ := (cTruncToInt another_pv.v0.x : ℚ)
        { pv with v0 := { pv.v0 with x := min_x }
                  v3 := { pv.v3 with x := min_x }
                  v4 := { pv.v4 with x := min_x } }
      else pv
    let pv :=
      if pv.v1.x < another_pv.v1.x then
        let max_x : ℚ := (cTruncToInt another_pv.v1.x : ℚ)
        { pv with v1 := { pv.v1 with x := max_x } }
      else pv
    let pv :=
      if another_pv.v0.y < pv.v0.y then
        let min_y : ℚ := (cTruncToInt another_pv.v0.y : ℚ)
        { pv with v0 := { pv.v0 with y := min_y }
                  v1 := { pv.v1 with y := min_y }
                  v4 := { pv.v4 with y := min_y } }
      else pv
    let pv :=
      if pv.v3.y < another_pv.v3.y then
        let may_y : ℚ := (cTruncToInt another_pv.v3.y : ℚ)
        { pv with v3 := { pv.v3 with y := may_y } }
      else pv
    let pv :=
      if another_pv.v0.z < pv.v0.z then
        let min_z : ℚ := (cTruncToInt another_pv.v0.z : ℚ)
        { pv with v0 := { pv.v0 with z := min_z }
                  v1 := { pv.v1 with z := min_z }
                  v3 := { pv.v3 with z := min_z } }
      else pv
    let pv :=
      if pv.v4.z < another_pv.v4.z then
        let maz_z : ℚ := (cTruncToInt another_pv.v4.z : ℚ)
        { pv with v4 := { pv.v4 with z := maz_z } }
      else pv
    let pv := { pv with is_2d := decide (pv.v4.z = pv.v0.z) }
    { pv with is_empty := false, is_complete := false }

/-- A frustum clip plane, from `ClutterPlane`: a point `v0` on the plane and
its (inward) normal `n`. -/
structure ClutterPlane where
  v0 : ClutterVertex
  n : ClutterVertex
deriving DecidableEq, Repr

/-- Result of a cull test, from `ClutterCullResult`. -/
inductive ClutterCullResult where
  | result_in
  | result_out
  | result_part
deriving DecidableEq, Repr

/-- Signed distance (up to the normal's length) of vertex `v` from `plane`,
as computed inside `_clutter_paint_volume_cull`. -/
def cullDistance (plane : ClutterPlane) (v : ClutterVertex) : ℚ :=
  plane.n.x * (v.x - plane.v0.x) +
  plane.n.y * (v.y - plane.v0.y) +
  plane.n.z * (v.z - plane.v0.z)

/-- The vertices the cull loop iterates over: the front 4 for a 2D volume,
all 8 otherwise (`vertex_count` in the source). -/
def cullVertices (pv : ClutterPaintVolume) : List ClutterVertex :=
  if pv.is_2d then [pv.v0, pv.v1, pv.v2, pv.v3]
  else [pv.v0, pv.v1, pv.v2, pv.v3, pv.v4, pv.v5, pv.v6, pv.v7]

/-- The inner loop of `_clutter_paint_volume_cull` over one list of planes,
threading the `partial` flag. For each plane it counts the vertices at
negative distance; the source then tests `out == 4` — the literal constant 4,
not `vertex_count`. -/
def cullLoop (pv : ClutterPaintVolume) : List ClutterPlane → Bool → ClutterCullResult
  | [], strad => if strad then .result_part else .result_in
  | p :: rest, strad =>
    let outCount := (cullVertices pv).countP (fun v => cullDistance p v < 0)
    if outCount = 4 then .result_out
    else cullLoop pv rest (strad || decide (outCount ≠ 0))

/-- From `_clutter_paint_volume_cull`: empty volumes are culled outright;
the volume must be complete, in eye coordinates (no actor back-pointer). -/
def clutter_paint_volume_cull (pv : ClutterPaintVolume)
    (planes : List ClutterPlane) : ClutterCullResult :=
  if pv.is_empty then .result_out
  else if ¬ (pv.is_complete = true) then .result_in
  else if ¬ (pv.hasActor = false) then .result_in
  else cullLoop pv planes false

/-- Every vertex the cull test inspects lies strictly outside (negative
distance from) every one of the planes. -/
def strictlyOutsideAll (pv : ClutterPaintVolume) (planes : List ClutterPlane) : Prop :=
  ∀ p ∈ planes, ∀ v ∈ cullVertices pv, cullDistance p v < 0

/-- The volume straddles the planes in the claim's sense: at least one
inspected vertex is on the inner (non-negative) side of every plane. -/
def straddles (pv : ClutterPaintVolume) (planes : List ClutterPlane) : Prop :=
  ∀ p ∈ planes, ∃ v ∈ cullVertices pv, 0 ≤ cullDistance p v

/-- Convenience: an axis-aligned box volume built through the public setters,
exactly as actor code builds paint volumes. -/
def mkBoxVolume (origin : ClutterVertex) (w h d : ℚ) : ClutterPaintVolume :=
  clutter_paint_volume_set_depth
    (clutter_paint_volume_set_height
      (clutter_paint_volume_set_width
        (clutter_paint_volume_set_origin (clutter_paint_volume_init_static false) origin)
        w)
      h)
    d

instance (pv : ClutterPaintVolume) (planes : List ClutterPlane) :
    Decidable (strictlyOutsideAll pv planes) := by
  unfold strictlyOutsideAll; infer_instance

instance (pv : ClutterPaintVolume) (planes : List ClutterPlane) :
    Decidable (straddles pv planes) := by
  unfold straddles; infer_instance

/-- A 3D box volume entirely behind the eye, completed as the paint pipeline
completes volumes before culling them. -/
def pvOutsideEx : ClutterPaintVolume :=
  clutter_paint_volume_complete (mkBoxVolume ⟨0, 0, 9⟩ 1 1 1)

/-- Four side planes of a symmetric eye-space frustum through the origin
looking down the negative z axis. -/
def frustumPlanesEx : List ClutterPlane :=
  [⟨zeroVertex, ⟨1, 0, -1⟩⟩, ⟨zeroVertex, ⟨-1, 0, -1⟩⟩,
   ⟨zeroVertex, ⟨0, 1, -1⟩⟩, ⟨zeroVertex, ⟨0, -1, -1⟩⟩]

/-- A 3D box volume straddling the first of `straddlePlanesEx` (4 of its 8
vertices on the outer side) and strictly inside the other planes. -/
def pvStraddleEx : ClutterPaintVolume :=
  clutter_paint_volume_complete (mkBoxVolume ⟨-1, 0, 1⟩ 2 1 1)

/-- A plane set whose first plane is x = 0 with inward normal +x; the other
three planes keep the example box on their inner side. -/
def straddlePlanesEx : List ClutterPlane :=
  [⟨zeroVertex, ⟨1, 0, 0⟩⟩, ⟨zeroVertex, ⟨0, 0, 1⟩⟩,
   ⟨zeroVertex, ⟨0, 0, 1⟩⟩, ⟨zeroVertex, ⟨0, 0, 1⟩⟩]

/-- C3: the claim fails on 3D (8-vertex) paint volumes, because
`_clutter_paint_volume_cull` compares each plane's outside-vertex count
against the literal `4` instead of `vertex_count`. Evaluating the embedded
code at the failing inputs: a 3D volume strictly outside all 4 planes is
classified PARTIAL (claim says OUT), and a 3D volume straddling one plane
with exactly 4 of its 8 vertices outside is classified OUT (claim says
never OUT). -/
theorem c3_cull_code_bug_eval :
    (strictlyOutsideAll pvOutsideEx frustumPlanesEx ∧
      clutter_paint_volume_cull pvOutsideEx frustumPlanesEx =
        ClutterCullResult.result_part) ∧
    (straddles pvStraddleEx straddlePlanesEx ∧
      clutter_paint_volume_cull pvStraddleEx straddlePlanesEx =
        ClutterCullResult.result_out) := by
  norm_num [strictlyOutsideAll, straddles, clutter_paint_volume_cull, cullLoop,
    cullVertices, cullDistance, pvOutsideEx, pvStraddleEx, frustumPlanesEx,
    straddlePlanesEx, mkBoxVolume, clutter_paint_volume_init_static,
    clutter_paint_volume_set_origin, clutter_paint_volume_set_width,
    clutter_paint_volume_set_height, clutter_paint_volume_set_depth,
    clutter_paint_volume_update_is_empty, clutter_paint_volume_complete,
    zeroVertex]

/-- Union destination operand: the unit square at the origin (depth 0). -/
def unionDstEx : ClutterPaintVolume := mkBoxVolume ⟨0, 0, 0⟩ 1 1 0

/-- Union source operand: a box whose right edge is at x = 3/2. -/
def unionSrcEx : ClutterPaintVolume := mkBoxVolume ⟨0, 0, 0⟩ (3 / 2) 1 0

/-- C4: `clutter_paint_volume_union` declares the candidate extents as `int`
(`int max_x = another_pv->vertices[1].x;`), truncating them. At the failing
input the unioned volume's key vertex 1 keeps x = 1 instead of the
componentwise maximum 3/2, so the result does not contain operand `b`. -/
theorem c4_union_truncation_eval :
    (clutter_paint_volume_union unionDstEx unionSrcEx).v1.x = 1 ∧
    unionSrcEx.v1.x = 3 / 2 ∧
    (clutter_paint_volume_union unionDstEx unionSrcEx).v1.x <
      max unionDstEx.v1.x unionSrcEx.v1.x := by
  norm_num [clutter_paint_volume_union, unionDstEx, unionSrcEx, cTruncToInt,
    mkBoxVolume, clutter_paint_volume_init_static,
    clutter_paint_volume_set_origin, clutter_paint_volume_set_width,
    clutter_paint_volume_set_height, clutter_paint_volume_set_depth,
    clutter_paint_volume_update_is_empty, zeroVertex]

/-- An empty paint volume placed at `origin`: origin, width, height and depth
extents all coincide, built through the public setters. -/
def mkEmptyVolumeAt (origin : ClutterVertex) : ClutterPaintVolume :=
  mkBoxVolume origin 0 0 0

/-- C10: for every plane set, the frustum-cull test classifies an empty paint
volume (origin, width, height and depth extents all coinciding) as OUT, since
`_clutter_paint_volume_cull` returns `CLUTTER_CULL_RESULT_OUT` whenever
`pv->is_empty` is set, before looking at any plane. -/
theorem c10_cull_empty_volume_out (origin : ClutterVertex)
    (planes : List ClutterPlane) :
    clutter_paint_volume_cull (mkEmptyVolumeAt origin) planes =
      ClutterCullResult.result_out := by
  have hempty : (mkEmptyVolumeAt origin).is_empty = true := by
    simp [mkEmptyVolumeAt, mkBoxVolume, clutter_paint_volume_init_static,
      clutter_paint_volume_set_origin, clutter_paint_volume_set_width,
      clutter_paint_volume_set_height, clutter_paint_volume_set_depth,
      clutter_paint_volume_update_is_empty, zeroVertex]
  simp [clutter_paint_volume_cull, hempty]

/-- A 2D box in parent coordinates, from `ClutterActorBox`. -/
@[ext]
structure ClutterActorBox where
  x1 : ℚ
  y1 : ℚ
  x2 : ℚ
  y2 : ℚ
deriving DecidableEq, Repr

/-- One cached size request, from `struct _SizeRequest` (an age of 0 means
the entry is not set). -/
structure SizeRequest where
  age : Nat
  for_size : ℚ
  min_size : ℚ
  natural_size : ℚ
deriving DecidableEq, Repr

/-- An unset cache slot (the source memsets the cache arrays to zero). -/
def emptySizeRequest : SizeRequest := ⟨0, 0, 0, 0⟩

/-- The slice of `ClutterActorPrivate` driving size negotiation and
allocation. Constraints are modelled as the in-place box adjustments the
enabled `ClutterConstraint` collaborators perform; `hasStage` records whether
`_clutter_actor_get_stage_internal` returns non-NULL. -/
structure ClutterActorLayout where
  allocation : ClutterActorBox
  allocation_flags_absolute_origin_changed : Bool
  needs_allocation : Bool
  needs_width_request : Bool
  needs_height_request : Bool
  width_requests : Fin 3 → SizeRequest
  cached_width_age : Nat
  request_min_width : ℚ
  request_natural_width : ℚ
  min_width_set : Bool
  natural_width_set : Bool
  transform_valid : Bool
  hasStage : Bool
  in_destruction : Bool
  constraints : List (ClutterActorBox → ClutterActorBox)

/-- Allocation flags, from `ClutterAllocationFlags` (the only flag is
`CLUTTER_ABSOLUTE_ORIGIN_CHANGED`). -/
structure AllocFlags where
  absolute_origin_changed : Bool
deriving DecidableEq, Repr

/-- `CLUTTER_ALLOCATION_NONE` (the literal `0` of the claim). -/
def allocFlagsNone : AllocFlags := ⟨false⟩

/-- From `clutter_actor_real_allocate`, the default `allocate` class closure:
store the box and flags, clear `needs_allocation`, and invalidate the cached
transform when any box coordinate or the flags changed. Property
notifications and the `allocation-changed` signal carry no modelled state. -/
def clutter_actor_real_allocate (s : ClutterActorLayout) (box : ClutterActorBox)
    (flags : AllocFlags) : ClutterActorLayout :=
  let x1_changed := s.allocation.x1 ≠ box.x1
  let y1_changed := s.allocation.y1 ≠ box.y1
  let x2_changed := s.allocation.x2 ≠ box.x2
  let y2_changed := s.allocation.y2 ≠ box.y2
  let flags_changed :=
    s.allocation_flags_absolute_origin_changed ≠ flags.absolute_origin_changed
  let s := { s with
    allocation := box
    allocation_flags_absolute_origin_changed := flags.absolute_origin_changed
    needs_allocation := false }
  if x1_changed ∨ y1_changed ∨ x2_changed ∨ y2_changed ∨ flags_changed then
    { s with transform_valid := false }
  else s

/-- From `clutter_actor_allocate`: refuse actors not descended from a stage,
run attached constraints on the box, skip the allocate step when nothing
needs it and nothing changed, translate a moved origin into the
`ABSOLUTE_ORIGIN_CHANGED` flag, and invoke the `allocate` class closure
(default `clutter_actor_real_allocate`); the trailing `queue_redraw` touches
only unmodelled damage state. -/
def clutter_actor_allocate (s : ClutterActorLayout) (box : ClutterActorBox)
    (flags : AllocFlags) : ClutterActorLayout :=
  if ¬ s.hasStage then s
  else
    let alloc := s.constraints.foldl (fun b f => f b) box
    let child_moved := alloc.x1 ≠ s.allocation.x1 ∨ alloc.y1 ≠ s.allocation.y1
    let stage_allocation_changed :=
      flags.absolute_origin_changed ∨ child_moved ∨
        alloc.x2 ≠ s.allocation.x2 ∨ alloc.y2 ≠ s.allocation.y2
    if ¬ s.needs_allocation ∧ ¬ stage_allocation_changed then s
    else
      let flags := if child_moved then { flags with absolute_origin_changed := true }
        else flags
      clutter_actor_real_allocate s alloc flags

/-- From `clutter_actor_get_allocation_box`: if the actor still needs an
allocation and sits in a stage, the stage's relayout (an external
collaborator, passed in as `maybe_relayout`) runs first; the latest
allocation box of the resulting state is returned. -/
def clutter_actor_get_allocation_box
    (maybe_relayout : ClutterActorLayout → ClutterActorLayout)
    (s : ClutterActorLayout) : ClutterActorBox × ClutterActorLayout :=
  let s := if s.needs_allocation ∧ s.hasStage then maybe_relayout s else s
  (s.allocation, s)

/-- The scan of `_clutter_actor_get_cached_size_request` over the cache
slots: return the first valid slot matching `for_size`, otherwise remember
the first slot of minimal age as the one to overwrite. -/
def cacheLookupLoop (for_size : ℚ) (cache : Fin 3 → SizeRequest) :
    List (Fin 3) → Fin 3 → Bool × Fin 3
  | [], best => (false, best)
  | i :: rest, best =>
    let sr := cache i
    if 0 < sr.age ∧ sr.for_size = for_size then (true, i)
    else if sr.age < (cache best).age then cacheLookupLoop for_size cache rest i
    else cacheLookupLoop for_size cache rest best

/-- From `_clutter_actor_get_cached_size_request` with
`N_CACHED_SIZE_REQUESTS = 3`: the result pointer starts at slot 0 and the
loop visits slots 0, 1, 2. -/
def clutter_actor_get_cached_size_request (for_size : ℚ)
    (cache : Fin 3 → SizeRequest) : Bool × Fin 3 :=
  cacheLookupLoop for_size cache [0, 1, 2] 0

/-- The tail of `clutter_actor_get_preferred_width`: push the slot's cached
sizes into `request_min_width` / `request_natural_width` (unless an explicit
override is set) and read the out-parameters from those fields. -/
def applyRequestOutputs (s : ClutterActorLayout) (entry : SizeRequest) :
    ClutterActorLayout × (ℚ × ℚ) :=
  let s := if ¬ s.min_width_set then
      { s with request_min_width := entry.min_size }
    else s
  let s := if ¬ s.natural_width_set then
      { s with request_natural_width := entry.natural_size }
    else s
  (s, (s.request_min_width, s.request_natural_width))

/-- The cache-miss branch of `clutter_actor_get_preferred_width`: invoke the
virtual sizing computation, clamp `natural ≥ min`, store the entry (tagged
with the current age) in the slot the cache scan designated, bump the age
counter, clear `needs_width_request`. -/
def computeAndCacheWidth (klass_get_preferred_width : ℚ → ℚ × ℚ)
    (s : ClutterActorLayout) (for_height : ℚ) (idx : Fin 3) :
    ClutterActorLayout :=
  let computed := klass_get_preferred_width for_height
  let min_width := computed.1
  let natural_width := computed.2
  let natural_width := if natural_width < min_width then min_width
    else natural_width
  let entry : SizeRequest :=
    { age := s.cached_width_age, for_size := for_height
      min_size := min_width, natural_size := natural_width }
  { s with
      width_requests := Function.update s.width_requests idx entry
      cached_width_age := s.cached_width_age + 1
      needs_width_request := false }

/-- From `clutter_actor_get_preferred_width`. `klass_get_preferred_width` is
the per-class virtual sizing computation; the returned `Nat` counts how many
times it was invoked (the call counter the spec's tests observe). The cache
is only consulted when `needs_width_request` is clear; on a miss the scan's
result slot (slot 0 when the scan did not run) is overwritten. -/
def clutter_actor_get_preferred_width (klass_get_preferred_width : ℚ → ℚ × ℚ)
    (s : ClutterActorLayout) (for_height : ℚ) :
    ClutterActorLayout × (ℚ × ℚ) × Nat :=
  let lookup :=
    if ¬ s.needs_width_request then
      clutter_actor_get_cached_size_request for_height s.width_requests
    else (false, 0)
  let found_in_cache := lookup.1
  let idx := lookup.2
  let step :=
    if ¬ found_in_cache then
      (computeAndCacheWidth klass_get_preferred_width s for_height idx, 1)
    else (s, 0)
  let out := applyRequestOutputs step.1 (step.1.width_requests idx)
  (out.1, out.2, step.2)

/-- C5: for an actor inside a stage with no constraints attached,
`clutter_actor_allocate (box, 0)` followed by
`clutter_actor_get_allocation_box` returns exactly `box`; afterwards
`needs_allocation` is clear (so the stored allocation stays valid, and
reading it does not change the state), until something queues a relayout. -/
theorem c5_allocate_get_allocation_roundtrip (s : ClutterActorLayout)
    (box : ClutterActorBox)
    (relayout : ClutterActorLayout → ClutterActorLayout)
    (hstage : s.hasStage = true) (hcon : s.constraints = []) :
    (clutter_actor_get_allocation_box relayout
        (clutter_actor_allocate s box allocFlagsNone)).1 = box ∧
    (clutter_actor_allocate s box allocFlagsNone).needs_allocation = false ∧
    (clutter_actor_get_allocation_box relayout
        (clutter_actor_allocate s box allocFlagsNone)).2 =
      clutter_actor_allocate s box allocFlagsNone := by
  have halloc : (clutter_actor_allocate s box allocFlagsNone).allocation = box ∧
      (clutter_actor_allocate s box allocFlagsNone).needs_allocation = false := by
    unfold clutter_actor_allocate clutter_actor_real_allocate
    rw [if_neg (by simp [hstage])]
    simp only [hcon, List.foldl_nil, allocFlagsNone]
    split
    · rename_i hcond
      obtain ⟨hna, hch⟩ := hcond
      push_neg at hch
      obtain ⟨-, ⟨h1, h2⟩, h3, h4⟩ := hch
      refine ⟨?_, by simpa using hna⟩
      ext <;> simp_all
    · constructor <;> (split <;> split <;> rfl)
  refine ⟨?_, halloc.2, ?_⟩ <;>
    simp [clutter_actor_get_allocation_box, halloc.1, halloc.2]

/-- A freshly initialised layout state for an actor sitting in a stage with
no constraints (mirroring `clutter_actor_init`). -/
def layoutStateEx : ClutterActorLayout where
  allocation := ⟨0, 0, 0, 0⟩
  allocation_flags_absolute_origin_changed := false
  needs_allocation := true
  needs_width_request := true
  needs_height_request := true
  width_requests := fun _ => emptySizeRequest
  cached_width_age := 1
  request_min_width := 0
  request_natural_width := 0
  min_width_set := false
  natural_width_set := false
  transform_valid := false
  hasStage := true
  in_destruction := false
  constraints := []

/-- Witness for C5 at a concrete state and box. -/
theorem c5_allocate_get_allocation_roundtrip_witness :
    (clutter_actor_get_allocation_box id
        (clutter_actor_allocate layoutStateEx ⟨1, 2, 3, 4⟩ allocFlagsNone)).1 =
      (⟨1, 2, 3, 4⟩ : ClutterActorBox) ∧
    (clutter_actor_allocate layoutStateEx ⟨1, 2, 3, 4⟩
        allocFlagsNone).needs_allocation = false ∧
    (clutter_actor_get_allocation_box id
        (clutter_actor_allocate layoutStateEx ⟨1, 2, 3, 4⟩ allocFlagsNone)).2 =
      clutter_actor_allocate layoutStateEx ⟨1, 2, 3, 4⟩ allocFlagsNone :=
  c5_allocate_get_allocation_roundtrip layoutStateEx ⟨1, 2, 3, 4⟩ id rfl rfl

/-- When the cache scan reports a hit, the returned slot is valid and holds
the requested size. -/
theorem cacheLookup_hit (for_size : ℚ) (cache : Fin 3 → SizeRequest)
    (h : (clutter_actor_get_cached_size_request for_size cache).1 = true) :
    0 < (cache (clutter_actor_get_cached_size_request for_size cache).2).age ∧
    (cache (clutter_actor_get_cached_size_request for_size cache).2).for_size =
      for_size := by
  simp only [clutter_actor_get_cached_size_request, cacheLookupLoop] at *
  split_ifs at * <;> simp_all

/-- When the cache scan reports a miss, no slot holds the requested size and
the returned slot has minimal age (the least-recently-computed one). -/
theorem cacheLookup_miss (for_size : ℚ) (cache : Fin 3 → SizeRequest)
    (h : (clutter_actor_get_cached_size_request for_size cache).1 = false) :
    (∀ i : Fin 3, ¬ (0 < (cache i).age ∧ (cache i).for_size = for_size)) ∧
    (∀ j : Fin 3,
      (cache (clutter_actor_get_cached_size_request for_size cache).2).age ≤
        (cache j).age) := by
  simp only [clutter_actor_get_cached_size_request, cacheLookupLoop] at *
  split_ifs at * <;>
    (constructor
     · intro i
       fin_cases i <;> simp_all
     · intro j
       fin_cases j <;> simp_all <;> omega)

/-- If exactly one slot holds a valid entry for `fs`, the scan loop finds it
regardless of the running best slot. -/
theorem cacheLookupLoop_hit_unique (fs : ℚ) (cache : Fin 3 → SizeRequest)
    (idx : Fin 3)
    (hhit : 0 < (cache idx).age ∧ (cache idx).for_size = fs)
    (hmiss : ∀ i : Fin 3, i ≠ idx →
      ¬ (0 < (cache i).age ∧ (cache i).for_size = fs)) :
    ∀ (l : List (Fin 3)) (b : Fin 3), idx ∈ l →
      cacheLookupLoop fs cache l b = (true, idx) := by
  intro l
  induction l with
  | nil => intro b hmem; simp at hmem
  | cons i rest ih =>
    intro b hmem
    by_cases hi : i = idx
    · subst hi
      simp only [cacheLookupLoop, if_pos hhit]
    · have hm := hmiss i hi
      have hrest : idx ∈ rest := by
        rcases List.mem_cons.mp hmem with h | h
        · exact absurd h.symm hi
        · exact h
      simp only [cacheLookupLoop, if_neg hm]
      split <;> exact ih _ hrest

/-- After storing a valid entry for `fs` in any slot of a cache that had no
entry for `fs`, the scan reports a hit at exactly that slot. -/
theorem cacheLookup_update_hit (fs : ℚ) (cache : Fin 3 → SizeRequest)
    (idx : Fin 3) (entry : SizeRequest) (hage : 0 < entry.age)
    (hfs : entry.for_size = fs)
    (hmiss : ∀ i : Fin 3, ¬ (0 < (cache i).age ∧ (cache i).for_size = fs)) :
    clutter_actor_get_cached_size_request fs (Function.update cache idx entry) =
      (true, idx) := by
  apply cacheLookupLoop_hit_unique
  · simp [Function.update_same, hage, hfs]
  · intro i hi
    rw [Function.update_noteq hi]
    exact hmiss i
  · fin_cases idx <;> simp

/-- The output-propagation tail leaves every field other than the two
`request_*` ones untouched. -/
theorem applyRequestOutputs_fields (t : ClutterActorLayout) (entry : SizeRequest) :
    (applyRequestOutputs t entry).1.width_requests = t.width_requests ∧
    (applyRequestOutputs t entry).1.needs_width_request = t.needs_width_request ∧
    (applyRequestOutputs t entry).1.min_width_set = t.min_width_set ∧
    (applyRequestOutputs t entry).1.natural_width_set = t.natural_width_set ∧
    (applyRequestOutputs t entry).1.cached_width_age = t.cached_width_age := by
  cases hms : t.min_width_set <;> cases hns : t.natural_width_set <;>
    simp [applyRequestOutputs, hms, hns]

/-- The values reported by the output-propagation tail. -/
theorem applyRequestOutputs_out (t : ClutterActorLayout) (entry : SizeRequest) :
    (applyRequestOutputs t entry).2 =
      ((if ¬ t.min_width_set then entry.min_size else t.request_min_width),
       (if ¬ t.natural_width_set then entry.natural_size
        else t.request_natural_width)) := by
  cases hms : t.min_width_set <;> cases hns : t.natural_width_set <;>
    simp [applyRequestOutputs, hms, hns]

/-- The `request_*` fields after the output-propagation tail. -/
theorem applyRequestOutputs_request (t : ClutterActorLayout) (entry : SizeRequest) :
    (applyRequestOutputs t entry).1.request_min_width =
      (if ¬ t.min_width_set then entry.min_size else t.request_min_width) ∧
    (applyRequestOutputs t entry).1.request_natural_width =
      (if ¬ t.natural_width_set then entry.natural_size
       else t.request_natural_width) := by
  cases hms : t.min_width_set <;> cases hns : t.natural_width_set <;>
    simp [applyRequestOutputs, hms, hns]

/-- Field-level description of the cache-miss branch: the designated slot
receives the clamped entry tagged with the current age, and the age counter
increments. -/
theorem computeAndCacheWidth_fields (klass : ℚ → ℚ × ℚ)
    (t : ClutterActorLayout) (h : ℚ) (idx : Fin 3) :
    (computeAndCacheWidth klass t h idx).width_requests =
      Function.update t.width_requests idx
        { age := t.cached_width_age, for_size := h
          min_size := (klass h).1
          natural_size :=
            if (klass h).2 < (klass h).1 then (klass h).1 else (klass h).2 } ∧
    (computeAndCacheWidth klass t h idx).needs_width_request = false ∧
    (computeAndCacheWidth klass t h idx).min_width_set = t.min_width_set ∧
    (computeAndCacheWidth klass t h idx).natural_width_set = t.natural_width_set ∧
    (computeAndCacheWidth klass t h idx).request_min_width = t.request_min_width ∧
    (computeAndCacheWidth klass t h idx).request_natural_width =
      t.request_natural_width ∧
    (computeAndCacheWidth klass t h idx).cached_width_age =
      t.cached_width_age + 1 := by
  unfold computeAndCacheWidth
  simp

/-- Unfolding of `clutter_actor_get_preferred_width` when
`needs_width_request` is clear. -/
theorem gpw_unfold (klass : ℚ → ℚ × ℚ) (t : ClutterActorLayout) (h : ℚ)
    (hneeds : t.needs_width_request = false) :
    clutter_actor_get_preferred_width klass t h =
      (let L := clutter_actor_get_cached_size_request h t.width_requests
       let step := if ¬ L.1 then (computeAndCacheWidth klass t h L.2, 1)
         else (t, 0)
       let out := applyRequestOutputs step.1 (step.1.width_requests L.2)
       (out.1, out.2, step.2)) := by
  simp only [clutter_actor_get_preferred_width, hneeds]
  simp

/-- Propagating the same cache entry twice reports the same out-values. -/
theorem applyRequestOutputs_stable (t : ClutterActorLayout) (entry : SizeRequest) :
    (applyRequestOutputs (applyRequestOutputs t entry).1 entry).2 =
      (applyRequestOutputs t entry).2 := by
  cases hms : t.min_width_set <;> cases hns : t.natural_width_set <;>
    simp [applyRequestOutputs, hms, hns]

/-- C6: with `needs_width_request` clear, two consecutive
`get_preferred_width(h)` calls with the same `h` return identical `(min,
natural)` out-values and invoke the per-class sizing computation at most once
in total — not at all when the cache already holds an entry for `h`. On a
miss, the natural width is clamped to `natural ≥ min` before being stored,
the entry is tagged with the current (monotonically increased) age, and it
overwrites a slot of minimal age (the least-recently-computed one). -/
theorem c6_preferred_width_cache_correct (klass : ℚ → ℚ × ℚ) (s : ClutterActorLayout) (h : ℚ)
    (hneeds : s.needs_width_request = false)
    (hage : 0 < s.cached_width_age) :
    (clutter_actor_get_preferred_width klass
        (clutter_actor_get_preferred_width klass s h).1 h).2.1 =
      (clutter_actor_get_preferred_width klass s h).2.1 ∧
    (clutter_actor_get_preferred_width klass s h).2.2 +
      (clutter_actor_get_preferred_width klass
        (clutter_actor_get_preferred_width klass s h).1 h).2.2 ≤ 1 ∧
    ((∃ i : Fin 3, 0 < (s.width_requests i).age ∧
        (s.width_requests i).for_size = h) →
      (clutter_actor_get_preferred_width klass s h).2.2 +
        (clutter_actor_get_preferred_width klass
          (clutter_actor_get_preferred_width klass s h).1 h).2.2 = 0) ∧
    ((clutter_actor_get_preferred_width klass s h).2.2 = 1 →
      ∃ i : Fin 3,
        (clutter_actor_get_preferred_width klass s h).1.width_requests i =
          { age := s.cached_width_age, for_size := h
            min_size := (klass h).1
            natural_size :=
              if (klass h).2 < (klass h).1 then (klass h).1 else (klass h).2 } ∧
        ((clutter_actor_get_preferred_width klass s h).1.width_requests
            i).min_size ≤
          ((clutter_actor_get_preferred_width klass s h).1.width_requests
            i).natural_size ∧
        (∀ j : Fin 3, (s.width_requests i).age ≤ (s.width_requests j).age) ∧
        (clutter_actor_get_preferred_width klass s h).1.cached_width_age =
          s.cached_width_age + 1) := by
  by_cases hf : (clutter_actor_get_cached_size_request h s.width_requests).1 = true
  · -- first call hits the cache
    set idx := (clutter_actor_get_cached_size_request h s.width_requests).2 with hidx
    have hr1 : clutter_actor_get_preferred_width klass s h =
        ((applyRequestOutputs s (s.width_requests idx)).1,
         (applyRequestOutputs s (s.width_requests idx)).2, 0) := by
      rw [gpw_unfold klass s h hneeds]
      simp only [hf, not_true, if_neg (by simp : ¬ (¬ True))]
      simp [hidx]
    obtain ⟨hw1, hn1, hm1, hna1, hca1⟩ :=
      applyRequestOutputs_fields s (s.width_requests idx)
    obtain ⟨hrm, hrn⟩ := applyRequestOutputs_request s (s.width_requests idx)
    set s1 := (applyRequestOutputs s (s.width_requests idx)).1 with hs1
    have hneeds1 : s1.needs_width_request = false := by rw [hn1]; exact hneeds
    have hr2 : clutter_actor_get_preferred_width klass s1 h =
        ((applyRequestOutputs s1 (s1.width_requests idx)).1,
         (applyRequestOutputs s1 (s1.width_requests idx)).2, 0) := by
      rw [gpw_unfold klass s1 h hneeds1]
      rw [show clutter_actor_get_cached_size_request h s1.width_requests =
        clutter_actor_get_cached_size_request h s.width_requests from by rw [hw1]]
      simp only [hf, not_true, if_neg (by simp : ¬ (¬ True))]
      simp [hidx]
    refine ⟨?_, ?_, ?_, ?_⟩
    · rw [hr1, hr2]
      simp only
      rw [show s1.width_requests = s.width_requests from hw1]
      exact applyRequestOutputs_stable s (s.width_requests idx)
    · rw [hr1, hr2]; simp
    · intro _; rw [hr1, hr2]; simp
    · intro hcount
      rw [hr1] at hcount
      simp at hcount
  · -- first call misses the cache
    replace hf : (clutter_actor_get_cached_size_request h s.width_requests).1 = false := by
      simpa using hf
    obtain ⟨hnohit, hargmin⟩ := cacheLookup_miss h s.width_requests hf
    set idx := (clutter_actor_get_cached_size_request h s.width_requests).2 with hidx
    obtain ⟨hMw, hMn, hMm, hMna, hMrm, hMrn, hMca⟩ :=
      computeAndCacheWidth_fields klass s h idx
    obtain ⟨hw1, hn1, hm1, hna1, hca1⟩ :=
      applyRequestOutputs_fields (computeAndCacheWidth klass s h idx)
        ((computeAndCacheWidth klass s h idx).width_requests idx)
    obtain ⟨hrm, hrn⟩ :=
      applyRequestOutputs_request (computeAndCacheWidth klass s h idx)
        ((computeAndCacheWidth klass s h idx).width_requests idx)
    set M := computeAndCacheWidth klass s h idx with hM
    have hMidx : M.width_requests idx =
        { age := s.cached_width_age, for_size := h
          min_size := (klass h).1
          natural_size :=
            if (klass h).2 < (klass h).1 then (klass h).1 else (klass h).2 } := by
      rw [hMw, Function.update_same]
    have hr1 : clutter_actor_get_preferred_width klass s h =
        ((applyRequestOutputs M (M.width_requests idx)).1,
         (applyRequestOutputs M (M.width_requests idx)).2, 1) := by
      rw [gpw_unfold klass s h hneeds]
      simp only [hf]
      simp [hidx, hM]
    set s1 := (applyRequestOutputs M (M.width_requests idx)).1 with hs1
    have hneeds1 : s1.needs_width_request = false := by rw [hn1, hMn]
    have hlookup1 : clutter_actor_get_cached_size_request h s1.width_requests =
        (true, idx) := by
      rw [hw1, hMw]
      exact cacheLookup_update_hit h s.width_requests idx _ hage rfl hnohit
    have hr2 : clutter_actor_get_preferred_width klass s1 h =
        ((applyRequestOutputs s1 (s1.width_requests idx)).1,
         (applyRequestOutputs s1 (s1.width_requests idx)).2, 0) := by
      rw [gpw_unfold klass s1 h hneeds1]
      simp only [hlookup1, not_true, if_neg (by simp : ¬ (¬ True))]
      simp
    have hs1idx : s1.width_requests idx = M.width_requests idx := by
      rw [hw1]
    refine ⟨?_, ?_, ?_, ?_⟩
    · rw [hr1, hr2]
      simp only
      rw [hs1idx]
      exact applyRequestOutputs_stable M (M.width_requests idx)
    · rw [hr1, hr2]; simp
    · intro hex
      obtain ⟨i, hi⟩ := hex
      exact absurd hi (hnohit i)
    · intro _
      refine ⟨idx, ?_, ?_, hargmin, ?_⟩
      · rw [hr1]
        simp only
        rw [hw1, hMidx]
      · rw [hr1]
        simp only
        rw [hw1, hMidx]
        simp only
        split
        · exact le_refl _
        · exact le_of_not_lt (by assumption)
      · rw [hr1]
        simp only
        rw [hca1, hMca]

/-- A layout state whose width-request machinery is warm (no pending width
request, age counter at its initial value 1) and whose cache is empty. -/
def cacheStateEx : ClutterActorLayout :=
  { layoutStateEx with needs_width_request := false }

/-- A concrete per-class sizing computation returning min 2, natural 5. -/
def klassWidthEx : ℚ → ℚ × ℚ := fun _ => (2, 5)

/-- Witness for C6 at a concrete state, class computation and height 7. -/
theorem c6_preferred_width_cache_correct_witness :
    (clutter_actor_get_preferred_width klassWidthEx
        (clutter_actor_get_preferred_width klassWidthEx cacheStateEx 7).1 7).2.1 =
      (clutter_actor_get_preferred_width klassWidthEx cacheStateEx 7).2.1 ∧
    (clutter_actor_get_preferred_width klassWidthEx cacheStateEx 7).2.2 +
      (clutter_actor_get_preferred_width klassWidthEx
        (clutter_actor_get_preferred_width klassWidthEx cacheStateEx 7).1 7).2.2 ≤ 1 ∧
    ((∃ i : Fin 3, 0 < (cacheStateEx.width_requests i).age ∧
        (cacheStateEx.width_requests i).for_size = 7) →
      (clutter_actor_get_preferred_width klassWidthEx cacheStateEx 7).2.2 +
        (clutter_actor_get_preferred_width klassWidthEx
          (clutter_actor_get_preferred_width klassWidthEx cacheStateEx 7).1 7).2.2 = 0) ∧
    ((clutter_actor_get_preferred_width klassWidthEx cacheStateEx 7).2.2 = 1 →
      ∃ i : Fin 3,
        (clutter_actor_get_preferred_width klassWidthEx cacheStateEx 7).1.width_requests i =
          { age := cacheStateEx.cached_width_age, for_size := 7
            min_size := (klassWidthEx 7).1
            natural_size :=
              if (klassWidthEx 7).2 < (klassWidthEx 7).1 then (klassWidthEx 7).1
              else (klassWidthEx 7).2 } ∧
        ((clutter_actor_get_preferred_width klassWidthEx cacheStateEx
            7).1.width_requests i).min_size ≤
          ((clutter_actor_get_preferred_width klassWidthEx cacheStateEx
            7).1.width_requests i).natural_size ∧
        (∀ j : Fin 3, (cacheStateEx.width_requests i).age ≤
          (cacheStateEx.width_requests j).age) ∧
        (clutter_actor_get_preferred_width klassWidthEx cacheStateEx
            7).1.cached_width_age =
          cacheStateEx.cached_width_age + 1) :=
  c6_preferred_width_cache_correct klassWidthEx cacheStateEx 7 rfl
    (by decide)

/-- 4x4 matrices over the (exactly modelled) scalar field, the shape of
`CoglMatrix`. -/
abbrev Mat4 : Type := Matrix (Fin 4) (Fin 4) ℚ

/-- The translation matrix `cogl_matrix_translate` post-multiplies by. -/
def translationMatrix (x y z : ℚ) : Mat4 :=
  !![1, 0, 0, x; 0, 1, 0, y; 0, 0, 1, z; 0, 0, 0, 1]

/-- The scale matrix `cogl_matrix_scale` post-multiplies by. -/
def scaleMatrix (sx sy sz : ℚ) : Mat4 :=
  !![sx, 0, 0, 0; 0, sy, 0, 0; 0, 0, sz, 0; 0, 0, 0, 1]

/-- A transform pivot, from the internal `AnchorCoord` struct: either direct
pixel coordinates or a fraction of the actor's current size. -/
inductive AnchorCoord where
  | units (x y z : ℚ)
  | fraction (fx fy : ℚ)
deriving DecidableEq, Repr

/-- From `clutter_anchor_coord_get_units`; `size` is the actor's current
size as returned by `clutter_actor_get_size`. -/
def clutter_anchor_coord_get_units (size : ℚ × ℚ) : AnchorCoord → ℚ × ℚ × ℚ
  | .units x y z => (x, y, z)
  | .fraction fx fy => (size.1 * fx, size.2 * fy, 0)

/-- From `clutter_anchor_coord_is_zero`. -/
def clutter_anchor_coord_is_zero : AnchorCoord → Bool
  | .units x y z => decide (x = 0 ∧ y = 0 ∧ z = 0)
  | .fraction fx fy => decide (fx = 0 ∧ fy = 0)

/-- The slice of `ClutterActorPrivate` feeding
`clutter_actor_real_apply_transform`. `size` stands for the value
`clutter_actor_get_size` reports while resolving fractional pivots. -/
structure TransformState where
  transform_valid : Bool
  transform : Mat4
  allocation : ClutterActorBox
  z : ℚ
  scale_x : ℚ
  scale_y : ℚ
  scale_center : AnchorCoord
  rzang : ℚ
  rz_center : AnchorCoord
  ryang : ℚ
  ry_center : AnchorCoord
  rxang : ℚ
  rx_center : AnchorCoord
  anchor : AnchorCoord
  size : ℚ × ℚ

/-- From the `TRANSFORM_ABOUT_ANCHOR_COORD` macro: translate by the resolved
pivot, apply the operation, translate back. -/
def transformAboutAnchorCoord (size : ℚ × ℚ) (m : Mat4) (c : AnchorCoord)
    (op : Mat4 → Mat4) : Mat4 :=
  let u := clutter_anchor_coord_get_units size c
  let m := m * translationMatrix u.1 u.2.1 u.2.2
  let m := op m
  m * translationMatrix (-u.1) (-u.2.1) (-u.2.2)

/-- From `clutter_actor_real_apply_transform`. `rotM angle axis` is the
rotation matrix `cogl_matrix_rotate` post-multiplies by (owned by the
external rendering library, hence a parameter). Returns the multiplied-in
matrix and the state with the freshly cached transform. -/
def clutter_actor_real_apply_transform
    (rotM : ℚ → ℚ × ℚ × ℚ → Mat4) (s : TransformState) (matrix : Mat4) :
    Mat4 × TransformState :=
  if s.transform_valid then (matrix * s.transform, s)
  else
    let t : Mat4 := 1
    let t := t * translationMatrix s.allocation.x1 s.allocation.y1 0
    let t := if s.z ≠ 0 then t * translationMatrix 0 0 s.z else t
    let t :=
      if s.scale_x ≠ 1 ∨ s.scale_y ≠ 1 then
        transformAboutAnchorCoord s.size t s.scale_center
          (fun m => m * scaleMatrix s.scale_x s.scale_y 1)
      else t
    let t :=
      if s.rzang ≠ 0 then
        transformAboutAnchorCoord s.size t s.rz_center
          (fun m => m * rotM s.rzang (0, 0, 1))
      else t
    let t :=
      if s.ryang ≠ 0 then
        transformAboutAnchorCoord s.size t s.ry_center
          (fun m => m * rotM s.ryang (0, 1, 0))
      else t
    let t :=
      if s.rxang ≠ 0 then
        transformAboutAnchorCoord s.size t s.rx_center
          (fun m => m * rotM s.rxang (1, 0, 0))
      else t
    let t :=
      if ¬ clutter_anchor_coord_is_zero s.anchor then
        let u := clutter_anchor_coord_get_units s.size s.anchor
        t * translationMatrix (-u.1) (-u.2.1) (-u.2.2)
      else t
    (matrix * t, { s with transform := t, transform_valid := true })

/-- Modelled from the spec: the local transform as §4.3 words it — translate
by the allocation origin (x, y), translate by depth z, scale about the scale
center, rotate about the z, then y, then x rotation centers, translate by
minus the anchor, where every about-center step is translate(+C), apply,
translate(−C), with no step skipped. -/
def specLocalTransform (rotM : ℚ → ℚ × ℚ × ℚ → Mat4) (s : TransformState) :
    Mat4 :=
  let about : AnchorCoord → Mat4 → Mat4 := fun c op =>
    let u := clutter_anchor_coord_get_units s.size c
    translationMatrix u.1 u.2.1 u.2.2 * op *
      translationMatrix (-u.1) (-u.2.1) (-u.2.2)
  let anchorU := clutter_anchor_coord_get_units s.size s.anchor
  translationMatrix s.allocation.x1 s.allocation.y1 0 *
    translationMatrix 0 0 s.z *
    about s.scale_center (scaleMatrix s.scale_x s.scale_y 1) *
    about s.rz_center (rotM s.rzang (0, 0, 1)) *
    about s.ry_center (rotM s.ryang (0, 1, 0)) *
    about s.rx_center (rotM s.rxang (1, 0, 0)) *
    translationMatrix (-anchorU.1) (-anchorU.2.1) (-anchorU.2.2)

/-- Composition of translations. -/
theorem translationMatrix_mul (a b c d e f : ℚ) :
    translationMatrix a b c * translationMatrix d e f =
      translationMatrix (a + d) (b + e) (c + f) := by
  ext i j
  fin_cases i <;> fin_cases j <;>
    simp [translationMatrix, Matrix.mul_apply, Fin.sum_univ_four,
      Matrix.vecHead, Matrix.vecTail] <;>
    try ring

/-- The zero translation is the identity. -/
theorem translationMatrix_zero : translationMatrix 0 0 0 = 1 := by
  ext i j
  fin_cases i <;> fin_cases j <;>
    simp [translationMatrix, Matrix.one_apply, Matrix.vecHead, Matrix.vecTail]

/-- A translation cancels against its opposite. -/
theorem translationMatrix_inv (a b c : ℚ) :
    translationMatrix a b c * translationMatrix (-a) (-b) (-c) = 1 := by
  rw [translationMatrix_mul]
  simp [translationMatrix_zero]

/-- The unit scale is the identity. -/
theorem scaleMatrix_one : scaleMatrix 1 1 1 = 1 := by
  ext i j
  fin_cases i <;> fin_cases j <;>
    simp [scaleMatrix, Matrix.one_apply, Matrix.vecHead, Matrix.vecTail]

/-- A pivot reported zero by `clutter_anchor_coord_is_zero` resolves to the
zero offset. -/
theorem anchor_zero_resolves_to_zero (size : ℚ × ℚ) (c : AnchorCoord)
    (h : clutter_anchor_coord_is_zero c = true) :
    clutter_anchor_coord_get_units size c = (0, 0, 0) := by
  cases c <;> simp_all [clutter_anchor_coord_is_zero, clutter_anchor_coord_get_units]

set_option maxHeartbeats 2000000 in
/-- C7: when the cached transform is invalid,
`clutter_actor_real_apply_transform` rebuilds it as exactly the product the
spec prescribes — translate by the allocation origin, translate by depth z,
scale about the scale center, rotate about the z, y, x rotation centers (each
about-center step being translate(+C) · op · translate(−C)), then translate
by minus the anchor — for every rotation-matrix collaborator that maps angle
0 to the identity; the result is post-multiplied into the given matrix and
cached. The conditional step-skipping in the source coincides with
multiplying by the identity. -/
theorem c7_local_transform_fixed_order (rotM : ℚ → ℚ × ℚ × ℚ → Mat4)
    (hrot : ∀ v, rotM 0 v = 1) (s : TransformState) (matrix : Mat4)
    (hvalid : s.transform_valid = false) :
    (clutter_actor_real_apply_transform rotM s matrix).1 =
      matrix * specLocalTransform rotM s ∧
    (clutter_actor_real_apply_transform rotM s matrix).2.transform =
      specLocalTransform rotM s := by
  unfold clutter_actor_real_apply_transform
  rw [if_neg (by simp [hvalid])]
  simp only [specLocalTransform, transformAboutAnchorCoord]
  constructor <;>
    (split_ifs <;>
      simp_all [anchor_zero_resolves_to_zero, translationMatrix_inv,
        translationMatrix_zero, scaleMatrix_one, hrot, mul_assoc, not_or])

/-- A rotation collaborator that returns the identity for every angle (the
simplest matrix satisfying the angle-0 law). -/
def rotMEx : ℚ → ℚ × ℚ × ℚ → Mat4 := fun _ _ => 1

/-- A concrete transform state exercising every build step. -/
def transformStateEx : TransformState where
  transform_valid := false
  transform := 1
  allocation := ⟨10, 20, 30, 40⟩
  z := 5
  scale_x := 2
  scale_y := 3
  scale_center := .units 1 1 0
  rzang := 90
  rz_center := .units 2 2 0
  ryang := 45
  ry_center := .fraction (1 / 2) (1 / 2)
  rxang := 30
  rx_center := .units 0 1 0
  anchor := .units 1 2 3
  size := (20, 20)

/-- Witness for C7 at a concrete state and rotation collaborator. -/
theorem c7_local_transform_fixed_order_witness :
    (clutter_actor_real_apply_transform rotMEx transformStateEx 1).1 =
      1 * specLocalTransform rotMEx transformStateEx ∧
    (clutter_actor_real_apply_transform rotMEx transformStateEx 1).2.transform =
      specLocalTransform rotMEx transformStateEx :=
  c7_local_transform_fixed_order rotMEx (fun _ => rfl) transformStateEx 1 rfl

/-- The redraw-queue bookkeeping of one actor used by the effect-merging tail
of `_clutter_actor_queue_redraw_full`: whether the actor already has a
pending entry in the stage's redraw list (`queue_redraw_entry != NULL`), the
pending effect reference, and the actor's attached effect chain
(`_clutter_meta_group_peek_metas (priv->effects)`; `none` models a NULL
effects group). Effects are identified by their position-stable ids. -/
structure RedrawEffectState where
  has_pending_entry : Bool
  effect_to_redraw : Option Nat
  effects : Option (List Nat)
deriving DecidableEq, Repr

/-- The effect-merge loop of `_clutter_actor_queue_redraw_full`: walk the
meta list, overwriting `effect_to_redraw` with every list element equal to
the (current) `effect_to_redraw` or to the incoming `effect`. -/
def effectMergeLoop (metas : List Nat) (eff : Nat) (cur : Option Nat) :
    Option Nat :=
  metas.foldl (fun cur l => if some l = cur ∨ l = eff then some l else cur) cur

/-- From `_clutter_actor_queue_redraw_full`, the effect-reference management
around `_clutter_stage_queue_actor_redraw` (whose entry bookkeeping is
abstracted into `has_pending_entry := true`): a first redraw adopts the
incoming effect; a later redraw with an effect merges through
`effectMergeLoop` when an effect is already pending (and is ignored when the
pending redraw is effect-less); a redraw without an effect clears the
reference. -/
def clutter_actor_queue_redraw_full_effect (s : RedrawEffectState)
    (effect : Option Nat) : RedrawEffectState :=
  let was_dirty := s.has_pending_entry
  let s := { s with has_pending_entry := true }
  if ¬ was_dirty then { s with effect_to_redraw := effect }
  else
    match effect with
    | some eff =>
      match s.effect_to_redraw with
      | some _ =>
        match s.effects with
        | none => s
        | some metas =>
          { s with effect_to_redraw :=
              effectMergeLoop metas eff s.effect_to_redraw }
      | none => s
    | none => { s with effect_to_redraw := none }

/-- C8: evaluating the embedded merge at the failing input. With effect chain
`[0, 1]`, a pending effect reference `1` and a new redraw carrying effect
`0`, the merge loop stores `0` — the effect that appears *earlier* in the
chain — because once the loop overwrites `effect_to_redraw` with the new
effect at its (earlier) position, the later element no longer matches either
side of the comparison. The claim's other two parts do hold and are included:
an effect-less pending redraw stays effect-less, and a redraw without an
effect reference clears the stored effect. -/
theorem c8_effect_merge_code_bug_eval :
    (clutter_actor_queue_redraw_full_effect
        ⟨true, some 1, some [0, 1]⟩ (some 0)).effect_to_redraw = some 0 ∧
    (0 ≠ 1 ∧ [0, 1].indexOf 0 < [0, 1].indexOf 1) ∧
    (clutter_actor_queue_redraw_full_effect
        ⟨true, none, some [0, 1]⟩ (some 0)).effect_to_redraw = none ∧
    (clutter_actor_queue_redraw_full_effect
        ⟨true, some 1, some [0, 1]⟩ none).effect_to_redraw = none := by
  decide

/-- The per-actor slice of `ClutterActor` / `ClutterActorPrivate` driving the
realize/map/visible lifecycle state machine: the three lifecycle flags, the
static `toplevel` kind, the re-entrancy flags, the paint-though-unmapped
override, the show-on-set-parent preference, the tree edges, and counters for
the emissions of the "show" and "hide" signals (the notifications the spec's
tests observe). Layout and damage bookkeeping (needs_* flags, redraw entries,
pick ids, last paint volumes) live outside this slice and are not read by any
path modelled here. -/
structure ActorRec where
  visible : Bool
  realized : Bool
  mapped : Bool
  toplevel : Bool
  in_reparent : Bool
  in_destruction : Bool
  enable_paint_unmapped : Bool
  show_on_set_parent : Bool
  parent : Option Nat
  children : List Nat
  show_emits : Nat
  hide_emits : Nat
deriving DecidableEq, Repr

/-- A scene graph: a finite map from actor ids to actor records. -/
def Graph : Type := List (Nat × ActorRec)

/-- First-match association lookup. -/
def glookup : Graph → Nat → Option ActorRec
  | [], _ => none
  | (j, a) :: rest, i => if i = j then some a else glookup rest i

/-- Update the record stored under `i` in place (no insertion, no removal). -/
def gUpdate : Graph → Nat → (ActorRec → ActorRec) → Graph
  | [], _, _ => []
  | (j, a) :: rest, i, f =>
    (if j = i then (j, f a) else (j, a)) :: gUpdate rest i f

theorem glookup_gUpdate (g : Graph) (i : Nat) (f : ActorRec → ActorRec)
    (j : Nat) :
    glookup (gUpdate g i f) j =
      if j = i then (glookup g i).map f else glookup g j := by
  induction g with
  | nil => by_cases h : j = i <;> simp [glookup, gUpdate, h]
  | cons p rest ih =>
    obtain ⟨k, a⟩ := p
    simp only [gUpdate]
    by_cases hk : k = i
    · simp only [if_pos hk]
      subst hk
      by_cases hj : j = k
      · subst hj; simp [glookup]
      · simp [glookup, hj, ih]
    · simp only [if_neg hk]
      by_cases hj : j = k
      · subst hj
        have hji : ¬ j = i := hk
        simp [glookup, hji]
      · simp [glookup, hj, ih, show ¬ i = k from fun h => hk h.symm]

/-- The map-state change hint, from the internal `MapStateChange` enum. -/
inductive MapStateChange where
  | check
  | makeUnrealized
  | makeMapped
  | makeUnmapped
deriving DecidableEq, Repr

/-- One call frame of the lifecycle machinery. Each constructor stands for
one of the mutually recursive C functions (list constructors stand for their
child-iteration loops / traversal worklists). -/
inductive Call where
  | updateMapState (id : Nat) (ch : MapStateChange)
  | setMapped (id : Nat) (b : Bool)
  | realMap (id : Nat)
  | mapChildren (ids : List Nat)
  | realUnmap (id : Nat)
  | unmapChildren (ids : List Nat)
  | actorMap (id : Nat)
  | actorUnmap (id : Nat)
  | realize (id : Nat)
  | unrealizeNotHiding (id : Nat)
  | unrealizeTraverse (ids : List Nat)
  | actorShow (id : Nat)
  | realShow (id : Nat)
  | actorHide (id : Nat)
  | realHide (id : Nat)
  | actorUnrealize (id : Nat)
  | setParent (id : Nat) (pid : Nat)
  | unparent (id : Nat)
  | reparent (id : Nat) (pid : Nat)
deriving DecidableEq, Repr

/-- From `set_show_on_set_parent`: persists the preference only while the
actor is unparented (the property notification carries no modelled state). -/
def set_show_on_set_parent (g : Graph) (id : Nat) (v : Bool) : Graph :=
  match glookup g id with
  | none => g
  | some a =>
    if a.show_on_set_parent = v then g
    else match a.parent with
      | none => gUpdate g id (fun a => { a with show_on_set_parent := v })
      | some _ => g

/-- The `should_be_mapped` / `may_be_realized` / `must_be_realized`
computation of `clutter_actor_update_map_state` for a non-toplevel actor,
given the (snapshotted) parent record. Returns
`(should_be_mapped, may_be_realized, must_be_realized)`. -/
def computeMapFlags (a : ActorRec) (parent : Option ActorRec)
    (ch : MapStateChange) : Bool × Bool × Bool :=
  match parent with
  | none => (false, false, false)
  | some pa =>
    if ch = .makeUnrealized then (false, false, false)
    else
      let parent_is_visible_realized_toplevel :=
        pa.toplevel && pa.visible && pa.realized
      let base := a.visible && ch ≠ MapStateChange.makeUnmapped &&
        (pa.mapped || parent_is_visible_realized_toplevel)
      let should := base || a.enable_paint_unmapped
      let must := base || a.enable_paint_unmapped
      (should, pa.realized, must)

/-- Fuel-indexed interpreter for the mutually recursive lifecycle functions
of `clutter-actor.c`. Out of fuel means the run did not complete (`none`), as
does a failed `g_assert` or a dangling actor reference; `g_return_if_fail`
and warnings leave the state unchanged, and signal emissions run only their
default class closures (there are no user handlers in the core). Calls that
touch unmodelled state (relayout flags, redraw entries, pick ids, text
direction, reference counts) leave this state slice unchanged. -/
def run : Nat → Call → Graph → Option Graph
  | 0, _, _ => none
  | Nat.succ n, c, g =>
    match c with
    | .updateMapState id ch =>
      match glookup g id with
      | none => none
      | some a =>
        if a.toplevel then
          (if a.visible then run n (.realize id) g else some g).bind fun g1 =>
          match ch with
          | .check => some g1
          | .makeMapped =>
            if a.mapped then none
            else run n (.setMapped id true) g1
          | .makeUnmapped =>
            if ¬ a.mapped then none
            else run n (.setMapped id false) g1
          | .makeUnrealized => some g1
        else
          let go : Bool × Bool × Bool → Option Graph := fun flags =>
            let should := flags.1
            let may := flags.2.1
            let must := flags.2.2
            (if ¬ should ∧ ¬ a.in_reparent then run n (.setMapped id false) g
             else some g).bind fun g1 =>
            (if must then run n (.realize id) g1 else some g1).bind fun g2 =>
            (if must ∧ ¬ may then none else some g2).bind fun g2 =>
            (if ¬ may ∧ ¬ a.in_reparent then run n (.unrealizeNotHiding id) g2
             else some g2).bind fun g3 =>
            if should then
              match glookup g3 id with
              | none => none
              | some a3 =>
                if a3.realized then run n (.setMapped id true) g3 else some g3
            else some g3
          match a.parent with
          | none => go (false, false, false)
          | some p =>
            match glookup g p with
            | none => none
            | some pa => go (computeMapFlags a (some pa) ch)
    | .setMapped id b =>
      match glookup g id with
      | none => none
      | some a =>
        if a.mapped = b then some g
        else if b then
          (run n (.realMap id) g).bind fun g1 =>
            match glookup g1 id with
            | none => none
            | some a1 => if a1.mapped then some g1 else none
        else
          (run n (.realUnmap id) g).bind fun g1 =>
            match glookup g1 id with
            | none => none
            | some a1 => if a1.mapped then none else some g1
    | .realMap id =>
      match glookup g id with
      | none => none
      | some a =>
        if a.mapped then none
        else
          run n (.mapChildren a.children)
            (gUpdate g id fun a => { a with mapped := true })
    | .mapChildren [] => some g
    | .mapChildren (c' :: rest) =>
      (run n (.actorMap c') g).bind fun g1 => run n (.mapChildren rest) g1
    | .realUnmap id =>
      match glookup g id with
      | none => none
      | some a =>
        if ¬ a.mapped then none
        else
          (run n (.unmapChildren a.children) g).bind fun g1 =>
            some (gUpdate g1 id fun a => { a with mapped := false })
    | .unmapChildren [] => some g
    | .unmapChildren (c' :: rest) =>
      (run n (.actorUnmap c') g).bind fun g1 => run n (.unmapChildren rest) g1
    | .actorMap id =>
      match glookup g id with
      | none => none
      | some a =>
        if a.mapped then some g
        else if ¬ a.visible then some g
        else run n (.updateMapState id .makeMapped) g
    | .actorUnmap id =>
      match glookup g id with
      | none => none
      | some a =>
        if ¬ a.mapped then some g
        else run n (.updateMapState id .makeUnmapped) g
    | .realize id =>
      match glookup g id with
      | none => none
      | some a =>
        if a.realized then some g
        else
          (match a.parent with
           | some p => run n (.realize p) g
           | none => some g).bind fun g1 =>
          match glookup g1 id with
          | none => none
          | some a1 =>
            if a1.toplevel then
              run n (.updateMapState id .check)
                (gUpdate g1 id fun a => { a with realized := true })
            else
              match a1.parent with
              | none => some g1
              | some p =>
                match glookup g1 p with
                | none => none
                | some pa =>
                  if ¬ pa.realized then some g1
                  else
                    run n (.updateMapState id .check)
                      (gUpdate g1 id fun a => { a with realized := true })
    | .unrealizeNotHiding id => run n (.unrealizeTraverse [id]) g
    | .unrealizeTraverse [] => some g
    | .unrealizeTraverse (x :: rest) =>
      match glookup g x with
      | none => none
      | some a =>
        if ¬ a.realized then
          run n (.unrealizeTraverse rest)
            (gUpdate g x fun a => { a with realized := false })
        else
          (run n (.unrealizeTraverse a.children) g).bind fun g1 =>
          run n (.unrealizeTraverse rest)
            (gUpdate g1 x fun a => { a with realized := false })
    | .actorShow id =>
      match glookup g id with
      | none => none
      | some a =>
        if a.visible then some (set_show_on_set_parent g id true)
        else
          let g1 := set_show_on_set_parent g id true
          let g1 := gUpdate g1 id fun a => { a with show_emits := a.show_emits + 1 }
          run n (.realShow id) g1
    | .realShow id =>
      match glookup g id with
      | none => none
      | some a =>
        if ¬ a.visible then
          run n (.updateMapState id .check)
            (gUpdate g id fun a => { a with visible := true })
        else some g
    | .actorHide id =>
      match glookup g id with
      | none => none
      | some a =>
        if ¬ a.visible then some (set_show_on_set_parent g id false)
        else
          let g1 := set_show_on_set_parent g id false
          let g1 := gUpdate g1 id fun a => { a with hide_emits := a.hide_emits + 1 }
          run n (.realHide id) g1
    | .realHide id =>
      match glookup g id with
      | none => none
      | some a =>
        if a.visible then
          run n (.updateMapState id .check)
            (gUpdate g id fun a => { a with visible := false })
        else some g
    | .actorUnrealize id =>
      match glookup g id with
      | none => none
      | some a =>
        if a.mapped then some g
        else
          (run n (.actorHide id) g).bind fun g1 =>
          run n (.unrealizeNotHiding id) g1
    | .setParent id pid =>
      if id = pid then some g
      else
        match glookup g id, glookup g pid with
        | some a, some _ =>
          if a.parent ≠ none then some g
          else if a.toplevel then some g
          else if a.in_destruction then some g
          else
            let g1 := gUpdate g id fun a => { a with parent := some pid }
            let g1 := gUpdate g1 pid fun p => { p with children := id :: p.children }
            (run n (.updateMapState id .check) g1).bind fun g2 =>
            match glookup g2 id with
            | none => none
            | some a2 =>
              if a2.show_on_set_parent then run n (.actorShow id) g2 else some g2
        | _, _ => none
    | .unparent id =>
      match glookup g id with
      | none => none
      | some a =>
        match a.parent with
        | none => some g
        | some _ =>
          (run n (.updateMapState id .makeUnrealized) g).bind fun g1 =>
          match glookup g1 id with
          | none => none
          | some a1 =>
            match a1.parent with
            | none => none
            | some p =>
              let g2 := gUpdate g1 id fun a => { a with parent := none }
              match glookup g2 p with
              | none => none
              | some _ =>
                some (gUpdate g2 p fun pa =>
                  { pa with children := pa.children.erase id })
    | .reparent id pid =>
      if id = pid then some g
      else
        match glookup g id, glookup g pid with
        | some a, some _ =>
          if a.toplevel then some g
          else if a.in_destruction then some g
          else if a.parent = some pid then some g
          else
            let g1 := gUpdate g id fun a => { a with in_reparent := true }
            (run n (.unparent id) g1).bind fun g2 =>
            (run n (.setParent id pid) g2).bind fun g3 =>
            run n (.updateMapState id .check)
              (gUpdate g3 id fun a => { a with in_reparent := false })
        | _, _ => none


def ActorRec.shape (a : ActorRec) : ActorRec :=
  { a with mapped := false, realized := false }

def SameShape (g g' : Graph) : Prop :=
  ∀ i, Option.map ActorRec.shape (glookup g i) =
    Option.map ActorRec.shape (glookup g' i)

theorem SameShape.refl (g : Graph) : SameShape g g := fun _ => rfl

theorem SameShape.trans {g1 g2 g3 : Graph} (h12 : SameShape g1 g2)
    (h23 : SameShape g2 g3) : SameShape g1 g3 :=
  fun i => (h12 i).trans (h23 i)

theorem sameShape_gUpdate (g : Graph) (id : Nat) (f : ActorRec → ActorRec)
    (hf : ∀ a, (f a).shape = a.shape) :
    SameShape g (gUpdate g id f) := by
  intro i
  rw [glookup_gUpdate]
  split
  · rename_i hi
    subst hi
    cases h : glookup g i <;> simp [h, hf]
  · rfl

theorem SameShape.lookup_some {g g' : Graph} (h : SameShape g g') {i : Nat}
    {a : ActorRec} (ha : glookup g i = some a) :
    ∃ a', glookup g' i = some a' ∧ a'.shape = a.shape := by
  have := h i
  rw [ha] at this
  cases h' : glookup g' i
  · rw [h'] at this; simp at this
  · rw [h'] at this
    simp at this
    exact ⟨_, rfl, this.symm⟩

theorem SameShape.lookup_none {g g' : Graph} (h : SameShape g g') {i : Nat}
    (ha : glookup g i = none) : glookup g' i = none := by
  have := h i
  rw [ha] at this
  cases h' : glookup g' i
  · rfl
  · rw [h'] at this; simp at this

theorem shape_eq_fields {a b : ActorRec} (h : a.shape = b.shape) :
    a.visible = b.visible ∧ a.toplevel = b.toplevel ∧
    a.in_reparent = b.in_reparent ∧ a.in_destruction = b.in_destruction ∧
    a.enable_paint_unmapped = b.enable_paint_unmapped ∧
    a.show_on_set_parent = b.show_on_set_parent ∧
    a.parent = b.parent ∧ a.children = b.children ∧
    a.show_emits = b.show_emits ∧ a.hide_emits = b.hide_emits := by
  cases a; cases b
  simp [ActorRec.shape] at h
  simp_all

def Call.isMapish : Call → Prop
  | .updateMapState _ _ => True
  | .setMapped _ _ => True
  | .realMap _ => True
  | .mapChildren _ => True
  | .realUnmap _ => True
  | .unmapChildren _ => True
  | .actorMap _ => True
  | .actorUnmap _ => True
  | .realize _ => True
  | .unrealizeNotHiding _ => True
  | .unrealizeTraverse _ => True
  | _ => False

theorem run_mapish_shape :
    ∀ (n : Nat) (c : Call) (g g' : Graph),
      run n c g = some g' → Call.isMapish c → SameShape g g' := by
  intro n
  induction n with
  | zero => intro c g g' h _; simp [run] at h
  | succ n ih =>
    intro c g g' h hc
    cases c with
    | updateMapState id ch =>
      simp only [run] at h
      cases hga : glookup g id with
      | none => simp only [hga] at h; simp at h
      | some a =>
        simp only [hga] at h
        by_cases ht : a.toplevel = true
        · rw [if_pos ht] at h
          obtain ⟨g1, h1, h2⟩ := Option.bind_eq_some.mp h
          have s1 : SameShape g g1 := by
            split at h1
            · exact ih _ _ _ h1 (by simp [Call.isMapish])
            · cases h1; exact SameShape.refl g
          cases ch with
          | check => cases h2; exact s1
          | makeUnrealized => cases h2; exact s1
          | makeMapped =>
            replace h2 : (if a.mapped = true then none
                else run n (Call.setMapped id true) g1) = some g' := h2
            split at h2
            · simp at h2
            · exact s1.trans (ih _ _ _ h2 (by simp [Call.isMapish]))
          | makeUnmapped =>
            replace h2 : (if ¬ a.mapped = true then none
                else run n (Call.setMapped id false) g1) = some g' := h2
            split at h2
            · simp at h2
            · exact s1.trans (ih _ _ _ h2 (by simp [Call.isMapish]))
        · rw [if_neg ht] at h
          have hgo : ∀ (flags : Bool × Bool × Bool),
              ((if ¬ flags.1 ∧ ¬ a.in_reparent
                then run n (.setMapped id false) g else some g).bind fun ga =>
               (if flags.2.2 then run n (.realize id) ga else some ga).bind fun gb =>
               (if flags.2.2 ∧ ¬ flags.2.1 then none else some gb).bind fun gc =>
               (if ¬ flags.2.1 ∧ ¬ a.in_reparent
                then run n (.unrealizeNotHiding id) gc else some gc).bind fun gd =>
               if flags.1 then
                 match glookup gd id with
                 | none => none
                 | some a3 =>
                   if a3.realized then run n (.setMapped id true) gd else some gd
               else some gd) = some g' → SameShape g g' := by
            intro flags hrun
            obtain ⟨ga, h1, hrun⟩ := Option.bind_eq_some.mp hrun
            obtain ⟨gb, h2, hrun⟩ := Option.bind_eq_some.mp hrun
            obtain ⟨gc, h2c, hrun⟩ := Option.bind_eq_some.mp hrun
            obtain ⟨gd, h3, hrun⟩ := Option.bind_eq_some.mp hrun
            have s1 : SameShape g ga := by
              split at h1
              · exact ih _ _ _ h1 (by simp [Call.isMapish])
              · cases h1; exact SameShape.refl g
            have s2 : SameShape ga gb := by
              split at h2
              · exact ih _ _ _ h2 (by simp [Call.isMapish])
              · cases h2; exact SameShape.refl ga
            have s2c : gb = gc := by
              split at h2c
              · simp at h2c
              · exact (Option.some.injEq _ _ ▸ h2c :)
            have s2c' : SameShape gb gc := by
              rw [s2c]
              exact SameShape.refl gc
            have s3 : SameShape gc gd := by
              split at h3
              · exact ih _ _ _ h3 (by simp [Call.isMapish])
              · cases h3; exact SameShape.refl gc
            have s4 : SameShape gd g' := by
              by_cases hf : flags.1 = true
              · rw [if_pos hf] at hrun
                cases hlk : glookup gd id with
                | none =>
                  rw [hlk] at hrun
                  exact Option.noConfusion hrun
                | some a3 =>
                  rw [hlk] at hrun
                  replace hrun : (if a3.realized = true
                      then run n (Call.setMapped id true) gd
                      else some gd) = some g' := hrun
                  split at hrun
                  · exact ih _ _ _ hrun (by simp [Call.isMapish])
                  · cases hrun; exact SameShape.refl _
              · rw [if_neg hf] at hrun
                cases hrun
                exact SameShape.refl _
            exact (((s1.trans s2).trans s2c').trans s3).trans s4
          cases hp : a.parent with
          | none =>
            rw [hp] at h
            exact hgo (false, false, false) h
          | some p =>
            simp only [hp] at h
            cases hpa : glookup g p with
            | none => simp only [hpa] at h; simp at h
            | some pa =>
              rw [hpa] at h
              exact hgo (computeMapFlags a (some pa) ch) h
    | setMapped id b =>
      simp only [run] at h
      cases hga : glookup g id with
      | none => simp only [hga] at h; simp at h
      | some a =>
        simp only [hga] at h
        split at h
        · cases h; exact SameShape.refl g
        · split at h <;>
          · obtain ⟨g1, h1, h2⟩ := Option.bind_eq_some.mp h
            have s1 : SameShape g g1 := ih _ _ _ h1 (by simp [Call.isMapish])
            cases hlk : glookup g1 id with
            | none => simp only [hlk] at h2; simp at h2
            | some a1 =>
              simp only [hlk] at h2
              split at h2 <;> first
                | (cases h2; exact s1)
                | simp at h2
    | realMap id =>
      simp only [run] at h
      cases hga : glookup g id with
      | none => simp only [hga] at h; simp at h
      | some a =>
        simp only [hga] at h
        split at h
        · simp at h
        · have s2 := ih _ _ _ h (by simp [Call.isMapish])
          exact (sameShape_gUpdate g id
            (fun a => { a with mapped := true }) (fun a => rfl)).trans s2
    | mapChildren ids =>
      cases ids with
      | nil => simp only [run] at h; cases h; exact SameShape.refl g
      | cons c' rest =>
        simp only [run] at h
        obtain ⟨g1, h1, h2⟩ := Option.bind_eq_some.mp h
        have sa := ih _ _ _ h1 (by simp [Call.isMapish])
        have sb := ih _ _ _ h2 (by simp [Call.isMapish])
        exact sa.trans sb
    | realUnmap id =>
      simp only [run] at h
      cases hga : glookup g id with
      | none => simp only [hga] at h; simp at h
      | some a =>
        simp only [hga] at h
        split at h
        · simp at h
        · obtain ⟨g1, h1, h2⟩ := Option.bind_eq_some.mp h
          cases h2
          have sa := ih _ _ _ h1 (by simp [Call.isMapish])
          exact sa.trans (sameShape_gUpdate g1 id
            (fun a => { a with mapped := false }) (fun a => rfl))
    | unmapChildren ids =>
      cases ids with
      | nil => simp only [run] at h; cases h; exact SameShape.refl g
      | cons c' rest =>
        simp only [run] at h
        obtain ⟨g1, h1, h2⟩ := Option.bind_eq_some.mp h
        have sa := ih _ _ _ h1 (by simp [Call.isMapish])
        have sb := ih _ _ _ h2 (by simp [Call.isMapish])
        exact sa.trans sb
    | actorMap id =>
      simp only [run] at h
      cases hga : glookup g id with
      | none => simp only [hga] at h; simp at h
      | some a =>
        simp only [hga] at h
        split at h
        · cases h; exact SameShape.refl g
        · split at h
          · cases h; exact SameShape.refl g
          · exact ih _ _ _ h (by simp [Call.isMapish])
    | actorUnmap id =>
      simp only [run] at h
      cases hga : glookup g id with
      | none => simp only [hga] at h; simp at h
      | some a =>
        simp only [hga] at h
        split at h
        · cases h; exact SameShape.refl g
        · exact ih _ _ _ h (by simp [Call.isMapish])
    | realize id =>
      simp only [run] at h
      cases hga : glookup g id with
      | none => simp only [hga] at h; simp at h
      | some a =>
        simp only [hga] at h
        split at h
        · cases h; exact SameShape.refl g
        · obtain ⟨g1, h1, h2⟩ := Option.bind_eq_some.mp h
          have s1 : SameShape g g1 := by
            cases hp : a.parent with
            | some p => simp only [hp] at h1; exact ih _ _ _ h1 (by simp [Call.isMapish])
            | none => simp only [hp] at h1; cases h1; exact SameShape.refl g
          have s2 : SameShape g1 g' := by
            cases hlk : glookup g1 id with
            | none => simp only [hlk] at h2; simp at h2
            | some a1 =>
              simp only [hlk] at h2
              split at h2
              · have sb := ih _ _ _ h2 (by simp [Call.isMapish])
                exact (sameShape_gUpdate g1 id
                  (fun a => { a with realized := true }) (fun a => rfl)).trans sb
              · cases hp1 : a1.parent with
                | none => simp only [hp1] at h2; cases h2; exact SameShape.refl _
                | some p =>
                  simp only [hp1] at h2
                  cases hpa : glookup g1 p with
                  | none => simp only [hpa] at h2; simp at h2
                  | some pa =>
                    simp only [hpa] at h2
                    split at h2
                    · cases h2; exact SameShape.refl _
                    · have sb := ih _ _ _ h2 (by simp [Call.isMapish])
                      exact (sameShape_gUpdate g1 id
                  (fun a => { a with realized := true }) (fun a => rfl)).trans sb
          exact s1.trans s2
    | unrealizeNotHiding id =>
      simp only [run] at h
      exact ih _ _ _ h (by simp [Call.isMapish])
    | unrealizeTraverse ids =>
      cases ids with
      | nil => simp only [run] at h; cases h; exact SameShape.refl g
      | cons x rest =>
        simp only [run] at h
        cases hga : glookup g x with
        | none => simp only [hga] at h; simp at h
        | some a =>
          simp only [hga] at h
          split at h
          · have sb := ih _ _ _ h (by simp [Call.isMapish])
            exact (sameShape_gUpdate g x
              (fun a => { a with realized := false }) (fun a => rfl)).trans sb
          · obtain ⟨g1, h1, h2⟩ := Option.bind_eq_some.mp h
            have sa := ih _ _ _ h1 (by simp [Call.isMapish])
            have sb := ih _ _ _ h2 (by simp [Call.isMapish])
            exact (sa.trans (sameShape_gUpdate g1 x
              (fun a => { a with realized := false }) (fun a => rfl))).trans sb
    | actorShow id => exact absurd hc (by simp [Call.isMapish])
    | realShow id => exact absurd hc (by simp [Call.isMapish])
    | actorHide id => exact absurd hc (by simp [Call.isMapish])
    | realHide id => exact absurd hc (by simp [Call.isMapish])
    | actorUnrealize id => exact absurd hc (by simp [Call.isMapish])
    | setParent id pid => exact absurd hc (by simp [Call.isMapish])
    | unparent id => exact absurd hc (by simp [Call.isMapish])
    | reparent id pid => exact absurd hc (by simp [Call.isMapish])

theorem sosp_lookup (g : Graph) (id : Nat) (v : Bool) {a : ActorRec}
    (ha : glookup g id = some a) :
    ∃ a', glookup (set_show_on_set_parent g id v) id = some a' ∧
      a'.visible = a.visible ∧ a'.parent = a.parent ∧
      a'.mapped = a.mapped ∧ a'.realized = a.realized ∧
      a'.show_emits = a.show_emits ∧ a'.hide_emits = a.hide_emits ∧
      (a'.show_on_set_parent = v ∨ a'.parent ≠ none) := by
  simp only [set_show_on_set_parent, ha]
  by_cases hv : a.show_on_set_parent = v
  · rw [if_pos hv]
    exact ⟨a, ha, rfl, rfl, rfl, rfl, rfl, rfl, Or.inl hv⟩
  · rw [if_neg hv]
    cases hp : a.parent with
    | none =>
      have hl : glookup (gUpdate g id
          (fun a => { a with show_on_set_parent := v })) id =
          some { a with show_on_set_parent := v } := by
        rw [glookup_gUpdate, if_pos rfl, ha]
        rfl
      exact ⟨_, hl, rfl, hp, rfl, rfl, rfl, rfl, Or.inl rfl⟩
    | some p =>
      exact ⟨a, ha, rfl, hp, rfl, rfl, rfl, rfl, Or.inr (by simp [hp])⟩

theorem sosp_idem (g : Graph) (id : Nat) (v : Bool) {a : ActorRec}
    (ha : glookup g id = some a)
    (h : a.show_on_set_parent = v ∨ a.parent ≠ none) :
    set_show_on_set_parent g id v = g := by
  simp only [set_show_on_set_parent, ha]
  by_cases hv : a.show_on_set_parent = v
  · rw [if_pos hv]
  · rw [if_neg hv]
    cases hp : a.parent with
    | none => cases h with
      | inl h' => exact absurd h' hv
      | inr h' => exact absurd hp h'
    | some p => rfl

theorem actorShow_post (n : Nat) (id : Nat) (g g1 : Graph) (a : ActorRec)
    (ha : glookup g id = some a)
    (h : run n (Call.actorShow id) g = some g1) :
    ∃ a1, glookup g1 id = some a1 ∧ a1.visible = true ∧
      (a1.show_on_set_parent = true ∨ a1.parent ≠ none) ∧
      a1.show_emits = a.show_emits + (if a.visible then 0 else 1) ∧
      a1.hide_emits = a.hide_emits := by
  match n with
  | 0 => simp [run] at h
  | Nat.succ n =>
    simp only [run, ha] at h
    by_cases hv : a.visible = true
    · rw [if_pos hv] at h
      cases h
      obtain ⟨a', hl, h1, h2, _, _, h5, h6, h7⟩ := sosp_lookup g id true ha
      exact ⟨a', hl, h1.trans hv, h7, by simp [hv, h5], h6⟩
    · rw [if_neg hv] at h
      obtain ⟨a', hl, h1, h2, _, _, h5, h6, h7⟩ := sosp_lookup g id true ha
      set gs := set_show_on_set_parent g id true with hgs
      have hl2 : glookup (gUpdate gs id fun a =>
          { a with show_emits := a.show_emits + 1 }) id =
          some { a' with show_emits := a'.show_emits + 1 } := by
        rw [glookup_gUpdate, if_pos rfl, hl]
        rfl
      match n, h with
      | 0, h => simp [run] at h
      | Nat.succ n, h =>
        simp only [run, hl2] at h
        have hv' : (¬ ({ a' with show_emits := a'.show_emits + 1 } :
            ActorRec).visible = true) := by
          simp only []
          rw [h1]
          exact hv
        rw [if_pos hv'] at h
        have hl3 : glookup (gUpdate (gUpdate gs id fun a =>
            { a with show_emits := a.show_emits + 1 }) id
              fun a => { a with visible := true }) id =
            some { a' with show_emits := a'.show_emits + 1, visible := true } := by
          rw [glookup_gUpdate, if_pos rfl, hl2]
          rfl
        have hsh := run_mapish_shape n _ _ _ h (by simp [Call.isMapish])
        obtain ⟨a1, hla1, hshape⟩ := hsh.lookup_some hl3
        obtain ⟨f1, _, _, _, _, f6, f7, _, f9, f10⟩ := shape_eq_fields hshape
        refine ⟨a1, hla1, by simp [f1], ?_, ?_, ?_⟩
        · cases h7 with
          | inl h' => exact Or.inl (by simp [f6, h'])
          | inr h' => exact Or.inr (by simp [f7]; exact fun hc => h' (h2 ▸ hc))
        · simp at f9
          rw [f9, h5]
          simp [hv]
        · simp at f10
          rw [f10, h6]

theorem actorHide_post (n : Nat) (id : Nat) (g g1 : Graph) (a : ActorRec)
    (ha : glookup g id = some a)
    (h : run n (Call.actorHide id) g = some g1) :
    ∃ a1, glookup g1 id = some a1 ∧ a1.visible = false ∧
      (a1.show_on_set_parent = false ∨ a1.parent ≠ none) ∧
      a1.hide_emits = a.hide_emits + (if a.visible then 1 else 0) ∧
      a1.show_emits = a.show_emits := by
  match n with
  | 0 => simp [run] at h
  | Nat.succ n =>
    simp only [run, ha] at h
    by_cases hv : a.visible = true
    · rw [if_neg (by simp [hv])] at h
      obtain ⟨a', hl, h1, h2, _, _, h5, h6, h7⟩ := sosp_lookup g id false ha
      set gs := set_show_on_set_parent g id false with hgs
      have hl2 : glookup (gUpdate gs id fun a =>
          { a with hide_emits := a.hide_emits + 1 }) id =
          some { a' with hide_emits := a'.hide_emits + 1 } := by
        rw [glookup_gUpdate, if_pos rfl, hl]
        rfl
      match n, h with
      | 0, h => simp [run] at h
      | Nat.succ n, h =>
        simp only [run, hl2] at h
        have hv' : (({ a' with hide_emits := a'.hide_emits + 1 } :
            ActorRec).visible = true) := by
          simp only []
          rw [h1]
          exact hv
        rw [if_pos hv'] at h
        have hl3 : glookup (gUpdate (gUpdate gs id fun a =>
            { a with hide_emits := a.hide_emits + 1 }) id
              fun a => { a with visible := false }) id =
            some { a' with hide_emits := a'.hide_emits + 1, visible := false } := by
          rw [glookup_gUpdate, if_pos rfl, hl2]
          rfl
        have hsh := run_mapish_shape n _ _ _ h (by simp [Call.isMapish])
        obtain ⟨a1, hla1, hshape⟩ := hsh.lookup_some hl3
        obtain ⟨f1, _, _, _, _, f6, f7, _, f9, f10⟩ := shape_eq_fields hshape
        refine ⟨a1, hla1, by simp [f1], ?_, ?_, ?_⟩
        · cases h7 with
          | inl h' => exact Or.inl (by simp [f6, h'])
          | inr h' => exact Or.inr (by simp [f7]; exact fun hc => h' (h2 ▸ hc))
        · simp at f10
          rw [f10, h6]
          simp [hv]
        · simp at f9
          rw [f9, h5]
    · rw [if_pos (by simp at hv; simp [hv])] at h
      cases h
      obtain ⟨a', hl, h1, h2, _, _, h5, h6, h7⟩ := sosp_lookup g id false ha
      simp at hv
      exact ⟨a', hl, h1.trans hv, h7, by simp [hv, h6], h5⟩

theorem actorShow_again (m : Nat) (id : Nat) (g1 : Graph) (a1 : ActorRec)
    (hl : glookup g1 id = some a1) (hv : a1.visible = true)
    (hs : a1.show_on_set_parent = true ∨ a1.parent ≠ none) :
    run (m + 1) (Call.actorShow id) g1 = some g1 := by
  simp only [run, hl]
  rw [if_pos hv, sosp_idem g1 id true hl hs]

theorem actorHide_again (m : Nat) (id : Nat) (g1 : Graph) (a1 : ActorRec)
    (hl : glookup g1 id = some a1) (hv : a1.visible = false)
    (hs : a1.show_on_set_parent = false ∨ a1.parent ≠ none) :
    run (m + 1) (Call.actorHide id) g1 = some g1 := by
  simp only [run, hl]
  rw [if_pos (by simp [hv]), sosp_idem g1 id false hl hs]

/-- C9: calling `clutter_actor_show` twice in a row yields the same final
state as calling it once (the second call returns the state unchanged, so
in particular it emits nothing), and the "show" signal fires exactly once
when the actor was hidden and not at all when it was already visible;
symmetrically for `clutter_actor_hide` and the "hide" signal. -/
theorem c9_show_hide_idempotent (n m : Nat) (id : Nat) (g gs gh : Graph)
    (a : ActorRec) (ha : glookup g id = some a)
    (hs : run n (Call.actorShow id) g = some gs)
    (hh : run n (Call.actorHide id) g = some gh) :
    (run (m + 1) (Call.actorShow id) gs = some gs ∧
      ∃ a1, glookup gs id = some a1 ∧
        a1.show_emits = a.show_emits + (if a.visible then 0 else 1) ∧
        a1.hide_emits = a.hide_emits) ∧
    (run (m + 1) (Call.actorHide id) gh = some gh ∧
      ∃ a2, glookup gh id = some a2 ∧
        a2.hide_emits = a.hide_emits + (if a.visible then 1 else 0) ∧
        a2.show_emits = a.show_emits) := by
  obtain ⟨a1, hl1, hv1, hp1, he1, hd1⟩ := actorShow_post n id g gs a ha hs
  obtain ⟨a2, hl2, hv2, hp2, he2, hd2⟩ := actorHide_post n id g gh a ha hh
  exact ⟨⟨actorShow_again m id gs a1 hl1 hv1 hp1, a1, hl1, he1, hd1⟩,
         ⟨actorHide_again m id gh a2 hl2 hv2 hp2, a2, hl2, he2, hd2⟩⟩

def c9a : ActorRec :=
  { visible := false, realized := false, mapped := false, toplevel := false,
    in_reparent := false, in_destruction := false,
    enable_paint_unmapped := false, show_on_set_parent := false,
    parent := none, children := [], show_emits := 0, hide_emits := 0 }

def c9g : Graph := [(0, c9a)]

def c9gs : Graph :=
  [(0, { visible := true, realized := false, mapped := false, toplevel := false,
         in_reparent := false, in_destruction := false,
         enable_paint_unmapped := false, show_on_set_parent := true,
         parent := none, children := [], show_emits := 1, hide_emits := 0 })]

theorem c9_show_hide_idempotent_witness :
    glookup c9g 0 = some c9a ∧
    run 8 (Call.actorShow 0) c9g = some c9gs ∧
    run 8 (Call.actorHide 0) c9g = some c9g ∧
    ((run (0 + 1) (Call.actorShow 0) c9gs = some c9gs ∧
      ∃ a1, glookup c9gs 0 = some a1 ∧
        a1.show_emits = c9a.show_emits + (if c9a.visible then 0 else 1) ∧
        a1.hide_emits = c9a.hide_emits) ∧
     (run (0 + 1) (Call.actorHide 0) c9g = some c9g ∧
      ∃ a2, glookup c9g 0 = some a2 ∧
        a2.hide_emits = c9a.hide_emits + (if c9a.visible then 1 else 0) ∧
        a2.show_emits = c9a.show_emits)) :=
  ⟨rfl, rfl, rfl,
   c9_show_hide_idempotent 8 0 0 c9g c9gs c9g c9a rfl rfl rfl⟩

/-- C2: for a non-toplevel actor with a parent, under the CHECK or
MAKE_MAPPED hints, `clutter_actor_update_map_state` computes
`should_be_mapped` as VISIBLE(actor) AND (parent MAPPED OR parent a
visible+realized toplevel), with the paint-though-unmapped override
forcing both should-map and must-realize; it applies the transitions in
the fixed order unmap, realize, unrealize, map, and performs the final
map only if the actor is REALIZED at that point. -/
theorem c2_reconcile_formula_and_order (n : Nat) (id p : Nat)
    (ch : MapStateChange) (g : Graph) (a pa : ActorRec)
    (ha : glookup g id = some a) (ht : a.toplevel = false)
    (hp : a.parent = some p) (hpa : glookup g p = some pa)
    (hch : ch = MapStateChange.check ∨ ch = MapStateChange.makeMapped) :
    run (n + 1) (Call.updateMapState id ch) g =
      (let should := (a.visible && (pa.mapped ||
          (pa.toplevel && pa.visible && pa.realized))) ||
        a.enable_paint_unmapped
       let must := should
       let may := pa.realized
       (if ¬ should ∧ ¬ a.in_reparent then run n (.setMapped id false) g
        else some g).bind fun g1 =>
       (if must then run n (.realize id) g1 else some g1).bind fun g2 =>
       (if must ∧ ¬ may then none else some g2).bind fun g2 =>
       (if ¬ may ∧ ¬ a.in_reparent then run n (.unrealizeNotHiding id) g2
        else some g2).bind fun g3 =>
       if should then
         match glookup g3 id with
         | none => none
         | some a3 =>
           if a3.realized then run n (.setMapped id true) g3 else some g3
       else some g3) := by
  have hf : computeMapFlags a (some pa) ch =
      ((a.visible && (pa.mapped ||
          (pa.toplevel && pa.visible && pa.realized))) ||
        a.enable_paint_unmapped, pa.realized,
       (a.visible && (pa.mapped ||
          (pa.toplevel && pa.visible && pa.realized))) ||
        a.enable_paint_unmapped) := by
    cases hch with
    | inl h => subst h; simp [computeMapFlags]
    | inr h => subst h; simp [computeMapFlags]
  simp only [run, ha, ht, Bool.false_eq_true, if_false, hp, hpa, hf]

def c2a : ActorRec :=
  { visible := true, realized := false, mapped := false, toplevel := false,
    in_reparent := false, in_destruction := false,
    enable_paint_unmapped := false, show_on_set_parent := false,
    parent := some 1, children := [], show_emits := 0, hide_emits := 0 }

def c2pa : ActorRec :=
  { visible := true, realized := true, mapped := true, toplevel := true,
    in_reparent := false, in_destruction := false,
    enable_paint_unmapped := false, show_on_set_parent := false,
    parent := none, children := [0], show_emits := 0, hide_emits := 0 }

def c2g : Graph := [(0, c2a), (1, c2pa)]

theorem c2_reconcile_formula_and_order_witness :
    glookup c2g 0 = some c2a ∧ c2a.toplevel = false ∧
    c2a.parent = some 1 ∧ glookup c2g 1 = some c2pa ∧
    (MapStateChange.check = MapStateChange.check ∨
      MapStateChange.check = MapStateChange.makeMapped) ∧
    run (8 + 1) (Call.updateMapState 0 MapStateChange.check) c2g =
      (let should := (c2a.visible && (c2pa.mapped ||
          (c2pa.toplevel && c2pa.visible && c2pa.realized))) ||
        c2a.enable_paint_unmapped
       let must := should
       let may := c2pa.realized
       (if ¬ should ∧ ¬ c2a.in_reparent then run 8 (.setMapped 0 false) c2g
        else some c2g).bind fun g1 =>
       (if must then run 8 (.realize 0) g1 else some g1).bind fun g2 =>
       (if must ∧ ¬ may then none else some g2).bind fun g2 =>
       (if ¬ may ∧ ¬ c2a.in_reparent then run 8 (.unrealizeNotHiding 0) g2
        else some g2).bind fun g3 =>
       if should then
         match glookup g3 0 with
         | none => none
         | some a3 =>
           if a3.realized then run 8 (.setMapped 0 true) g3 else some g3
       else some g3) :=
  ⟨rfl, rfl, rfl, rfl, Or.inl rfl,
   c2_reconcile_formula_and_order 8 0 1 MapStateChange.check c2g c2a c2pa
     rfl rfl rfl rfl (Or.inl rfl)⟩

def c1ca : ActorRec :=
  { visible := true, realized := true, mapped := true, toplevel := true,
    in_reparent := false, in_destruction := false,
    enable_paint_unmapped := false, show_on_set_parent := false,
    parent := none, children := [], show_emits := 0, hide_emits := 0 }

def c1ca' : ActorRec :=
  { visible := false, realized := true, mapped := true, toplevel := true,
    in_reparent := false, in_destruction := false,
    enable_paint_unmapped := false, show_on_set_parent := false,
    parent := none, children := [], show_emits := 0, hide_emits := 1 }

theorem c1_counterexample_toplevel_hide :
    run 6 (Call.actorHide 0) [(0, c1ca)] = some [(0, c1ca')] ∧
    glookup [(0, c1ca')] 0 = some c1ca' ∧
    c1ca'.in_reparent = false ∧ c1ca'.in_destruction = false ∧
    c1ca'.mapped = true ∧ c1ca'.visible = false :=
  ⟨rfl, rfl, rfl, rfl, rfl, rfl⟩

